import Mathlib

/-!
Shallow embedding of the RTP Statistics and Anomaly Engine of the
Ibibe-rtp-mgmt repository.

Numbers: JavaScript floating-point values are modelled as exact rationals
(`ℚ`); the properties checked here are the arithmetic identities of the
code, stated over exact arithmetic.

Strings: the engine interpolates the parameters of an anomaly into a
message string.  The messages are modelled structurally: the `ErrorKind`
inductive carries exactly the data that `_flagCriticalError` call sites in
`src/rtp/src/core/rtp-stats.js` interpolate into their message strings.

Timestamps (`new Date().toISOString()`, `Date.now()`) are wall-clock
side effects irrelevant to every claim and are omitted from the records.

Keyed objects (`this.perGameStats[gameId]`, `Map`) are modelled as
insertion-ordered association lists, matching the enumeration order of
`for (const k in obj)` for string keys.
-/

namespace RTPEngine

/-- A game round, the shared data model of the repository:
`{betAmount, payout, gameId, clientId}`. -/
structure GameRound where
  betAmount : ℚ
  payout : ℚ
  gameId : String
  clientId : String
deriving DecidableEq, Repr

/-- The guard at the top of `RTPStatistics.addGameRound`
(src/rtp/src/core/rtp-stats.js line 32): the typeof checks hold by typing
here, and `!gameRound.gameId || !gameRound.clientId` rejects exactly the
falsy (empty) identifiers. -/
def GameRound.valid (r : GameRound) : Bool :=
  r.gameId ≠ "" && r.clientId ≠ ""

/-- Configuration of `RTPStatistics` (constructor defaults at
src/rtp/src/core/rtp-stats.js lines 6-14). -/
structure Config where
  overallTargetRTP : ℚ
  overallTolerance : ℚ
  criticalToleranceFactor : ℚ
  minRoundsForRTPValidation : ℕ
  maxLosingStreak : ℕ
  gameSpecificRTPs : List (String × ℚ)
deriving DecidableEq, Repr

/-- The constructor defaults: target 96.0, tolerance 0.5, critical factor 2,
min rounds 100, max losing streak 50, no game specific targets. -/
def defaultConfig : Config :=
  { overallTargetRTP := 96
    overallTolerance := 1/2
    criticalToleranceFactor := 2
    minRoundsForRTPValidation := 100
    maxLosingStreak := 50
    gameSpecificRTPs := [] }

/-- Per-scope record created lazily by `addGameRound`:
`{ totalBets: 0, totalPayouts: 0, rounds: 0, currentLosingStreak: 0 }`. -/
structure ScopeStats where
  totalBets : ℚ
  totalPayouts : ℚ
  rounds : ℕ
  currentLosingStreak : ℕ
deriving DecidableEq, Repr

def freshScope : ScopeStats := ⟨0, 0, 0, 0⟩

/-- Association-list read, modelling `obj[key]` on a keyed object. -/
def alistGet {α : Type} (m : List (String × α)) (k : String) : Option α :=
  match m with
  | [] => none
  | (k', v) :: rest => if k' = k then some v else alistGet rest k

/-- Association-list write, modelling `obj[key] = v`: replaces the binding
in place if the key is present, otherwise appends it (insertion order). -/
def alistSet {α : Type} (m : List (String × α)) (k : String) (v : α) :
    List (String × α) :=
  match m with
  | [] => [(k, v)]
  | (k', v') :: rest =>
      if k' = k then (k, v) :: rest else (k', v') :: alistSet rest k v

/-- Read-modify-write on a keyed object entry, creating the fresh scope
record first when the key is absent (the `if (!this.perGameStats[id])`
pattern of `addGameRound`). -/
def modifyScope (m : List (String × ScopeStats)) (k : String)
    (f : ScopeStats → ScopeStats) : List (String × ScopeStats) :=
  alistSet m k (f ((alistGet m k).getD freshScope))

/-- The data interpolated into the message strings of the four
`_flagCriticalError` call sites of `RTPStatistics`. -/
inductive ErrorKind where
  | losingStreakClient (clientId : String) (streakLength maxAllowed : ℕ)
  | overallRTPDeviation (rtp target deviation : ℚ)
  | gameRTPDeviation (gameId : String) (rtp target deviation : ℚ) (rounds : ℕ)
  | clientRTPAnomaly (clientId : String) (rtp target deviation : ℚ) (rounds : ℕ)
deriving DecidableEq, Repr

/-- An entry of `this.criticalErrors` as pushed by `_flagCriticalError`
(src/rtp/src/core/rtp-stats.js lines 133-141); the `timestamp` field is
omitted (wall clock). -/
structure CriticalError where
  kind : ErrorKind
  roundCount : ℕ
deriving DecidableEq, Repr

/-- An entry of `this.rtpHistory` as pushed by `snapshotRTP`
(src/rtp/src/core/rtp-stats.js lines 85-91); `timestamp` omitted. -/
structure RTPSnapshot where
  roundCount : ℕ
  rtp : ℚ
  deviation : ℚ
  isWithinTolerance : Bool
deriving DecidableEq, Repr

/-- The `RTPCalculator` helper as `RTPStatistics` is written against it
(constructed at src/rtp/src/core/rtp-stats.js lines 16-20 with
`{targetRTP, tolerance, minSampleSize}`; the class with this
constructor and call convention is the one given in the RTP README
section embedded in the same source file).  NOTE: the module the import
statement actually resolves to, src/rtp/src/core/rtp-calc.js, has a
different signature (`validateRTP` returns a bare boolean,
`calculateActualRTP` takes a `gameId`), and the composition through it
never produces the record modelled here — see the `JS` namespace and
the `imported` definitions for the faithful composed behavior.  This
contract-level model gives `snapshotRTP` strictly more flagging
behavior than the composed program, which flags no RTP deviations at
all, so a safety property proved over this model carries over to the
program. -/
structure RTPCalculator where
  targetRTP : ℚ
  tolerance : ℚ
  minSampleSize : ℕ
deriving DecidableEq, Repr

/-- `RTPCalculator.calculateActualRTP(gameData)`: sums bets and payouts of
the given `{betAmount, payout}` records and returns
`totalPayouts / totalBets * 100`.  Division by zero yields 0 in `ℚ`; the
claims checked here only evaluate it on data with a positive bet sum. -/
def RTPCalculator.calculateActualRTP (gameData : List (ℚ × ℚ)) : ℚ :=
  let totalBets := (gameData.map Prod.fst).sum
  let totalPayouts := (gameData.map Prod.snd).sum
  totalPayouts / totalBets * 100

/-- Result record of `RTPCalculator.validateRTP` (the `confidence` field,
a derived diagnostic, is omitted). -/
structure ValidationResult where
  isValid : Bool
  deviation : ℚ
deriving DecidableEq, Repr

/-- `RTPCalculator.validateRTP(actualRTP, targetRTP)`:
`deviation = Math.abs(actualRTP - targetRTP)`,
`isValid = deviation <= this.tolerance`. -/
def RTPCalculator.validateRTP (c : RTPCalculator) (actualRTP targetRTP : ℚ) :
    ValidationResult :=
  let deviation := |actualRTP - targetRTP|
  ⟨decide (deviation ≤ c.tolerance), deviation⟩

/-- The instance state of `RTPStatistics`
(src/rtp/src/core/rtp-stats.js constructor, lines 5-29). -/
structure RTPStatistics where
  config : Config
  rtpCalculator : RTPCalculator
  gameRounds : List GameRound
  rtpHistory : List RTPSnapshot
  criticalErrors : List CriticalError
  totalBets : ℚ
  totalPayouts : ℚ
  perGameStats : List (String × ScopeStats)
  perClientStats : List (String × ScopeStats)
deriving DecidableEq, Repr

/-- `new RTPStatistics(config)`. -/
def initState (cfg : Config) : RTPStatistics :=
  { config := cfg
    rtpCalculator :=
      ⟨cfg.overallTargetRTP, cfg.overallTolerance, cfg.minRoundsForRTPValidation⟩
    gameRounds := []
    rtpHistory := []
    criticalErrors := []
    totalBets := 0
    totalPayouts := 0
    perGameStats := []
    perClientStats := [] }

/-- `RTPStatistics._flagCriticalError(type, message)`: appends a record
whose `roundCount` is the current `this.gameRounds.length`. -/
def flagCriticalError (s : RTPStatistics) (kind : ErrorKind) : RTPStatistics :=
  { s with criticalErrors := s.criticalErrors ++ [⟨kind, s.gameRounds.length⟩] }

/-- First half of `RTPStatistics._trackLosingStreaks` (lines 61-71): the
client-scope streak machine.  On a loss the streak is incremented; on a
non-loss, if the streak that is ending is `>= maxLosingStreak` a critical
error is flagged first, and then the streak is reset to 0. -/
def updateClientStreak (s : RTPStatistics) (r : GameRound) : RTPStatistics :=
  let isLoss := r.payout < r.betAmount
  let clientStats := (alistGet s.perClientStats r.clientId).getD freshScope
  if isLoss then
    let bumped := { clientStats with currentLosingStreak := clientStats.currentLosingStreak + 1 }
    { s with perClientStats := alistSet s.perClientStats r.clientId bumped }
  else
    let s' :=
      if s.config.maxLosingStreak ≤ clientStats.currentLosingStreak then
        flagCriticalError s
          (.losingStreakClient r.clientId clientStats.currentLosingStreak
            s.config.maxLosingStreak)
      else s
    let cleared := { clientStats with currentLosingStreak := 0 }
    { s' with perClientStats := alistSet s'.perClientStats r.clientId cleared }

/-- Second half of `RTPStatistics._trackLosingStreaks` (lines 73-77): the
game-scope streak counter is incremented on a loss and reset on a
non-loss; no critical error is flagged for game scopes. -/
def updateGameStreak (s : RTPStatistics) (r : GameRound) : RTPStatistics :=
  let isLoss := r.payout < r.betAmount
  let gameStats := (alistGet s.perGameStats r.gameId).getD freshScope
  if isLoss then
    let bumped := { gameStats with currentLosingStreak := gameStats.currentLosingStreak + 1 }
    { s with perGameStats := alistSet s.perGameStats r.gameId bumped }
  else
    let cleared := { gameStats with currentLosingStreak := 0 }
    { s with perGameStats := alistSet s.perGameStats r.gameId cleared }

/-- `RTPStatistics._trackLosingStreaks(gameRound)` (lines 58-78). -/
def trackLosingStreaks (s : RTPStatistics) (r : GameRound) : RTPStatistics :=
  updateGameStreak (updateClientStreak s r) r

/-- The per-scope accumulation performed by `addGameRound` on both scope
records (lines 44-46 and 51-53): add the bet and the payout, increment
the round count. -/
def roundScopeUpdate (r : GameRound) (st : ScopeStats) : ScopeStats :=
  { st with
    totalBets := st.totalBets + r.betAmount
    totalPayouts := st.totalPayouts + r.payout
    rounds := st.rounds + 1 }

/-- Lines 37-53 of `addGameRound`: push the round, add to the overall
sums, update both scope records. -/
def applyRoundTotals (s : RTPStatistics) (r : GameRound) : RTPStatistics :=
  { s with
    gameRounds := s.gameRounds ++ [r]
    totalBets := s.totalBets + r.betAmount
    totalPayouts := s.totalPayouts + r.payout
    perGameStats := modifyScope s.perGameStats r.gameId (roundScopeUpdate r)
    perClientStats := modifyScope s.perClientStats r.clientId (roundScopeUpdate r) }

/-- `RTPStatistics.addGameRound(gameRound)` (lines 31-56): guard, push the
round, add to the overall sums, update both scope records, then run the
streak tracker. -/
def addGameRound (s : RTPStatistics) (r : GameRound) : RTPStatistics :=
  if r.valid then trackLosingStreaks (applyRoundTotals s r) r
  else s

/-- `RTPStatistics.getCurrentCumulativeRTP()` (lines 186-191). -/
def getCurrentCumulativeRTP (s : RTPStatistics) : ℚ :=
  if s.totalBets = 0 then 0 else s.totalPayouts / s.totalBets * 100

/-- `this.config.gameSpecificRTPs[gameId] || this.config.overallTargetRTP`:
a missing entry, and also a falsy (zero) entry, fall back to the overall
target. -/
def gameTargetRTP (cfg : Config) (gameId : String) : ℚ :=
  match alistGet cfg.gameSpecificRTPs gameId with
  | some t => if t = 0 then cfg.overallTargetRTP else t
  | none => cfg.overallTargetRTP

/-- The critical-escalation test used by `snapshotRTP` (line 92 and
line 107): `!validation.isValid && validation.deviation > tolerance *
criticalToleranceFactor`. -/
def escalatesCritical (tolerance criticalFactor : ℚ) (v : ValidationResult) :
    Bool :=
  !v.isValid && decide (tolerance * criticalFactor < v.deviation)

/-- Lines 83-97 of `snapshotRTP`: compute the overall RTP from the raw
round history, validate it, push a history snapshot, and flag an
overall critical deviation when the escalation test fires.  Modelled
under the README calculator contract; in the composed program the
imported calculator makes the pushed `rtp`/`deviation` values an object
and `undefined` and the line-92 test constantly false (see the
`imported` definitions), so this model over-approximates the flags the
program can emit. -/
def snapshotOverall (s : RTPStatistics) : RTPStatistics :=
  let overallRTP :=
    RTPCalculator.calculateActualRTP
      (s.gameRounds.map fun r => (r.betAmount, r.payout))
  let v := s.rtpCalculator.validateRTP overallRTP s.config.overallTargetRTP
  let s1 :=
    { s with rtpHistory := s.rtpHistory ++
        [⟨s.gameRounds.length, overallRTP, v.deviation, v.isValid⟩] }
  if escalatesCritical s1.config.overallTolerance
      s1.config.criticalToleranceFactor v then
    flagCriticalError s1
      (.overallRTPDeviation overallRTP s1.config.overallTargetRTP v.deviation)
  else s1

/-- Body of the per-game loop of `snapshotRTP` (lines 99-114): a game
with enough rounds whose scope RTP fails the escalation test against
its (possibly game-specific) target is flagged.  Modelled under the
README calculator contract; the composed line-107 test reads
`.isValid`/`.deviation` off the boolean the imported `validateRTP`
returns and so never fires (see the `imported` definitions) — this
model over-approximates the flags. -/
def gameScanStep (st : RTPStatistics) (p : String × ScopeStats) : RTPStatistics :=
  if st.config.minRoundsForRTPValidation ≤ p.2.rounds then
    let target := gameTargetRTP st.config p.1
    let gameRTP :=
      RTPCalculator.calculateActualRTP [(p.2.totalBets, p.2.totalPayouts)]
    let gv := st.rtpCalculator.validateRTP gameRTP target
    if escalatesCritical st.config.overallTolerance
        st.config.criticalToleranceFactor gv then
      flagCriticalError st (.gameRTPDeviation p.1 gameRTP target gv.deviation p.2.rounds)
    else st
  else st

/-- Body of the per-client loop of `snapshotRTP` (lines 116-130): a
client with enough rounds whose scope RTP deviates from the overall
target by more than three tolerances is flagged.  Modelled under the
README calculator contract; the composed line-121 computation is
`Math.abs(object - target) = NaN` and so never fires (see the
`imported` definitions) — this model over-approximates the flags. -/
def clientScanStep (st : RTPStatistics) (p : String × ScopeStats) : RTPStatistics :=
  if st.config.minRoundsForRTPValidation ≤ p.2.rounds then
    let clientRTP :=
      RTPCalculator.calculateActualRTP [(p.2.totalBets, p.2.totalPayouts)]
    let dev := |clientRTP - st.config.overallTargetRTP|
    if st.config.overallTolerance * 3 < dev then
      flagCriticalError st
        (.clientRTPAnomaly p.1 clientRTP st.config.overallTargetRTP dev p.2.rounds)
    else st
  else st

/-- The `for (const gameId in this.perGameStats)` loop of `snapshotRTP`:
fold the per-game scan over the entries of the current state. -/
def gameScan (s : RTPStatistics) : RTPStatistics :=
  s.perGameStats.foldl gameScanStep s

/-- The `for (const clientId in this.perClientStats)` loop of
`snapshotRTP`. -/
def clientScan (s : RTPStatistics) : RTPStatistics :=
  s.perClientStats.foldl clientScanStep s

/-- `RTPStatistics.snapshotRTP()` (lines 80-131): early return below the
minimum round count; otherwise record an overall history snapshot, flag
an overall critical deviation, then scan per-game and per-client scopes
(each guarded by its own round count) and flag their deviations. -/
def snapshotRTP (s : RTPStatistics) : RTPStatistics :=
  if s.gameRounds.length < s.config.minRoundsForRTPValidation then s
  else clientScan (gameScan (snapshotOverall s))

/-- Per-game summary entry of `generateReport` (RTP values kept as exact
rationals; the `toFixed(2) + "%"` formatting of the source is a
presentation detail dropped here). -/
structure GameSummary where
  rounds : ℕ
  actualRTP : ℚ
  targetRTP : ℚ
  losingStreak : ℕ
deriving DecidableEq, Repr

/-- Per-client summary entry of `generateReport`. -/
structure ClientSummary where
  rounds : ℕ
  actualRTP : ℚ
  losingStreak : ℕ
deriving DecidableEq, Repr

/-- The report object returned by `RTPStatistics.generateReport`
(lines 171-183). -/
structure Report where
  totalRoundsSimulated : ℕ
  overallTargetRTP : ℚ
  overallTolerance : ℚ
  finalOverallActualRTP : ℚ
  finalOverallDeviation : ℚ
  isFinalOverallRTPValid : Bool
  criticalErrorCount : ℕ
  criticalErrorsDetails : List CriticalError
  rtpHistorySnapshots : List RTPSnapshot
  perGameSummary : List (String × GameSummary)
  perClientSummary : List (String × ClientSummary)
deriving DecidableEq, Repr

/-- `RTPStatistics.generateReport()` (lines 143-184). -/
def generateReport (s : RTPStatistics) : Report :=
  let finalOverallRTP := getCurrentCumulativeRTP s
  let finalOverallDeviation := |finalOverallRTP - s.config.overallTargetRTP|
  { totalRoundsSimulated := s.gameRounds.length
    overallTargetRTP := s.config.overallTargetRTP
    overallTolerance := s.config.overallTolerance
    finalOverallActualRTP := finalOverallRTP
    finalOverallDeviation := finalOverallDeviation
    isFinalOverallRTPValid := decide (finalOverallDeviation ≤ s.config.overallTolerance)
    criticalErrorCount := s.criticalErrors.length
    criticalErrorsDetails := s.criticalErrors
    rtpHistorySnapshots := s.rtpHistory
    perGameSummary := s.perGameStats.map fun p =>
      let rtp : ℚ := if 0 < p.2.totalBets then p.2.totalPayouts / p.2.totalBets * 100 else 0
      (p.1,
        { rounds := p.2.rounds
          actualRTP := rtp
          targetRTP := gameTargetRTP s.config p.1
          losingStreak := p.2.currentLosingStreak })
    perClientSummary := s.perClientStats.map fun p =>
      let rtp : ℚ := if 0 < p.2.totalBets then p.2.totalPayouts / p.2.totalBets * 100 else 0
      (p.1,
        { rounds := p.2.rounds
          actualRTP := rtp
          losingStreak := p.2.currentLosingStreak }) }

/-- The `generateReport` method as a state transformer: the body of the
method (lines 143-184) contains no assignment to `this`, so the resulting
instance state is the input state. -/
def generateReportM (s : RTPStatistics) : Report × RTPStatistics :=
  (generateReport s, s)

/-- Fold a sequence of `addGameRound` calls from a fresh instance. -/
def applyRounds (cfg : Config) (rs : List GameRound) : RTPStatistics :=
  rs.foldl addGameRound (initState cfg)

/-- A call made by a driver of the engine: adding a round or taking a
periodic snapshot. -/
inductive Op where
  | add (r : GameRound)
  | snapshot
deriving DecidableEq, Repr

def applyOp (s : RTPStatistics) : Op → RTPStatistics
  | .add r => addGameRound s r
  | .snapshot => snapshotRTP s

/-- Run a sequence of engine calls from a fresh instance. -/
def applyOps (cfg : Config) (ops : List Op) : RTPStatistics :=
  ops.foldl applyOp (initState cfg)

/-! ### The `RTPCalculator` class of src/rtp/src/core/rtp-calc.js

The per-game statistics tracker with a stored list of per-round RTP
values.  `Infinity` and `-Infinity` sentinels of `minRTP`/`maxRTP` are
modelled by `none`.  The `standardDeviation` field, `Math.sqrt` of the
`variance` field, is kept as a derived definition rather than a stored
field; `lastUpdated`, `roundId` and the stored timestamps are wall-clock
data and are omitted. -/

namespace RtpCalc

/-- Decimal rounding performed by `Number(x.toFixed(4))`, modelled as
round-half-up to four decimal places on exact rationals. -/
def toFixed4 (q : ℚ) : ℚ := (round (q * 10000) : ℤ) / 10000

/-- The per-game statistics record of `initializeStatistics`
(src/rtp/src/core/rtp-calc.js lines 98-113). -/
structure GameStats where
  totalBets : ℚ
  totalPayouts : ℚ
  roundCount : ℕ
  rtpValues : List ℚ
  meanRTP : ℚ
  variance : ℚ
  minRTP : Option ℚ
  maxRTP : Option ℚ
  currentLosingStreak : ℕ
  longestLosingStreak : ℕ
deriving DecidableEq, Repr

/-- `RTPCalculator.initializeStatistics()`. -/
def initializeStatistics : GameStats :=
  { totalBets := 0
    totalPayouts := 0
    roundCount := 0
    rtpValues := []
    meanRTP := 0
    variance := 0
    minRTP := none
    maxRTP := none
    currentLosingStreak := 0
    longestLosingStreak := 0 }

/-- `RTPCalculator.updateStatistics(gameId, betAmount, payout)`
(src/rtp/src/core/rtp-calc.js lines 121-154), on the statistics record of
the given game: add to the sums and the round count, push
`roundRTP = betAmount === 0 ? 0 : payout / betAmount * 100` onto
`rtpValues`, refresh the (bet-weighted) `meanRTP` and the `min`/`max`,
update the losing streak, and when at least two rounds exist recompute
the sample variance from the stored values. -/
def updateStatistics (stats : GameStats) (betAmount payout : ℚ) : GameStats :=
  let stats :=
    { stats with
      totalBets := stats.totalBets + betAmount
      totalPayouts := stats.totalPayouts + payout
      roundCount := stats.roundCount + 1 }
  let roundRTP : ℚ := if betAmount = 0 then 0 else payout / betAmount * 100
  let stats := { stats with rtpValues := stats.rtpValues ++ [roundRTP] }
  let newMin : ℚ := match stats.minRTP with | none => roundRTP | some m => min m roundRTP
  let newMax : ℚ := match stats.maxRTP with | none => roundRTP | some m => max m roundRTP
  let meanRTP : ℚ :=
    if stats.totalBets = 0 then 0 else stats.totalPayouts / stats.totalBets * 100
  let stats := { stats with meanRTP := meanRTP, minRTP := some newMin, maxRTP := some newMax }
  let stats :=
    if payout < betAmount then
      { stats with currentLosingStreak := stats.currentLosingStreak + 1 }
    else
      { stats with currentLosingStreak := 0 }
  let stats := { stats with longestLosingStreak := max stats.longestLosingStreak stats.currentLosingStreak }
  if 2 ≤ stats.roundCount then
    let mean : ℚ := stats.rtpValues.sum / (stats.rtpValues.length : ℚ)
    let variance : ℚ :=
      (stats.rtpValues.map fun val => (val - mean) ^ 2).sum / ((stats.rtpValues.length : ℚ) - 1)
    { stats with variance := variance }
  else stats

/-- The instance state of the calculator: `gameData` and `statistics`,
both keyed by `gameId`. -/
structure CalcState where
  gameData : List (String × List GameRound)
  statistics : List (String × GameStats)
deriving DecidableEq, Repr

/-- `new RTPCalculator(config)`: empty maps. -/
def initCalc : CalcState := ⟨[], []⟩

/-- `RTPCalculator.addRoundData(roundData)` (src/rtp/src/core/rtp-calc.js
lines 19-36): create the entries for an unseen game, push the round, then
update the statistics of that game. -/
def addRoundData (s : CalcState) (r : GameRound) : CalcState :=
  let gameData :=
    if (alistGet s.gameData r.gameId).isNone then alistSet s.gameData r.gameId []
    else s.gameData
  let statistics :=
    if (alistGet s.statistics r.gameId).isNone then
      alistSet s.statistics r.gameId initializeStatistics
    else s.statistics
  let rounds := (alistGet gameData r.gameId).getD []
  let stats := (alistGet statistics r.gameId).getD initializeStatistics
  { gameData := alistSet gameData r.gameId (rounds ++ [r])
    statistics := alistSet statistics r.gameId (updateStatistics stats r.betAmount r.payout) }

/-- The record returned by `RTPCalculator.getStatistics` (lines 161-176);
`standardDeviation` (the square root of `variance`) and `lastUpdated` are
omitted as noted above. -/
structure StatsView where
  gameId : String
  roundCount : ℕ
  meanRTP : ℚ
  variance : ℚ
  minRTP : ℚ
  maxRTP : ℚ
deriving DecidableEq, Repr

/-- `RTPCalculator.getStatistics(gameId)` (lines 161-176): `null` for an
untracked game, otherwise a fresh copy of the statistics with the
sentinels replaced by 0 and the values rounded to four decimals. -/
def getStatistics (s : CalcState) (gameId : String) : Option StatsView :=
  match alistGet s.statistics gameId with
  | none => none
  | some st =>
      some
        { gameId := gameId
          roundCount := st.roundCount
          meanRTP := toFixed4 st.meanRTP
          variance := toFixed4 st.variance
          minRTP := match st.minRTP with | none => 0 | some m => toFixed4 m
          maxRTP := match st.maxRTP with | none => 0 | some m => toFixed4 m }

/-- The `getStatistics` method as a state transformer: its body
(lines 161-176) performs no assignment to `this`, it builds and returns a
copy, so the resulting instance state is the input state. -/
def getStatisticsM (s : CalcState) (gameId : String) : Option StatsView × CalcState :=
  (getStatistics s gameId, s)

/-- Fold a sequence of `addRoundData` calls from a fresh calculator. -/
def runCalc (rs : List GameRound) : CalcState :=
  rs.foldl addRoundData initCalc

end RtpCalc

/-! ### The Welford calculator of src/src/core/rtp-stats.js

The `RTPCalculator` class of that file (lines 601-862) keeps running
mean/variance per game with the online single-pass update of
`updateStatistics` (lines 766-790), and the `RTPStatistics` class of the
same file recomputes statistics naively from the per-round RTP list
(`calculateRTPPerRound`, lines 41-45, and `calculateBasicStatistics`,
lines 52-75). -/

namespace CoreCalc

/-- The per-game record of `initializeStatistics`
(src/src/core/rtp-stats.js lines 748-758); the `standardDeviation` field,
`Math.sqrt` of `variance`, is the derived `standardDeviation` definition
below; `lastUpdated` is omitted. -/
structure Stats where
  meanRTP : ℚ
  variance : ℚ
  sumSquaredDeviations : ℚ
  minRTP : Option ℚ
  maxRTP : Option ℚ
deriving DecidableEq, Repr

/-- `RTPCalculator.initializeStatistics()` (lines 748-758). -/
def initializeStatistics : Stats :=
  { meanRTP := 0
    variance := 0
    sumSquaredDeviations := 0
    minRTP := none
    maxRTP := none }

/-- `RTPCalculator.updateStatistics(gameId, betAmount, payout)`
(src/src/core/rtp-stats.js lines 766-790).  `n` is
`this.gameData.get(gameId).length`, the round count including the round
being processed (the caller `addRoundData` pushes the round first).  A
round with `betAmount <= 0` leaves the record untouched. -/
def updateStatistics (stats : Stats) (n : ℕ) (betAmount payout : ℚ) : Stats :=
  if 0 < betAmount then
    let roundRTP := payout / betAmount * 100
    let newMin : ℚ := match stats.minRTP with | none => roundRTP | some m => min m roundRTP
    let newMax : ℚ := match stats.maxRTP with | none => roundRTP | some m => max m roundRTP
    let oldMean := stats.meanRTP
    let newMean := oldMean + (roundRTP - oldMean) / (n : ℚ)
    let m2 := stats.sumSquaredDeviations + (roundRTP - oldMean) * (roundRTP - newMean)
    if 1 < n then
      { meanRTP := newMean
        variance := m2 / ((n : ℚ) - 1)
        sumSquaredDeviations := m2
        minRTP := some newMin
        maxRTP := some newMax }
    else
      { meanRTP := newMean
        variance := stats.variance
        sumSquaredDeviations := m2
        minRTP := some newMin
        maxRTP := some newMax }
  else stats

/-- `stats.standardDeviation = Math.sqrt(stats.variance)` (line 785),
kept as a derived real-valued reading of the record. -/
noncomputable def standardDeviation (stats : Stats) : ℝ :=
  Real.sqrt (stats.variance : ℝ)

/-- The rounds-plus-statistics state of one game inside the calculator:
the entry of `this.gameData` and the entry of `this.statistics`. -/
structure Tracker where
  gameRounds : List GameRound
  stats : Stats
deriving DecidableEq, Repr

/-- `RTPCalculator.addRoundData(roundData)` (lines 612-629) restricted to
one game: push the round onto the stored list, then run
`updateStatistics` with the new length. -/
def addRoundData (t : Tracker) (r : GameRound) : Tracker :=
  let gameRounds := t.gameRounds ++ [r]
  ⟨gameRounds, updateStatistics t.stats gameRounds.length r.betAmount r.payout⟩

/-- Fold a sequence of `addRoundData` calls for one game from fresh
statistics. -/
def runRounds (rs : List GameRound) : Tracker :=
  rs.foldl addRoundData ⟨[], initializeStatistics⟩

/-- `RTPStatistics.calculateRTPPerRound(gameData)`
(src/src/core/rtp-stats.js lines 41-45). -/
def calculateRTPPerRound (gameData : List GameRound) : List ℚ :=
  (gameData.filter fun r => 0 < r.betAmount).map fun r => r.payout / r.betAmount * 100

/-- The mean computed inside `RTPStatistics.calculateBasicStatistics`
(line 58): `sum / n`. -/
def basicMean (xs : List ℚ) : ℚ := xs.sum / (xs.length : ℚ)

/-- The naive two-pass sample variance of
`RTPStatistics.calculateBasicStatistics` (line 60):
`sum((val - mean)^2) / (n - 1)`. -/
def basicVariance (xs : List ℚ) : ℚ :=
  (xs.map fun val => (val - basicMean xs) ^ 2).sum / ((xs.length : ℚ) - 1)

end CoreCalc

/-! ### The batch ingestor `APIDataSource` of src/unnamed/part_001

`fetchGameRounds` pulls rounds from `executeSpinBatch` in bounded batches
inside a `try`/`catch` loop: a successful batch is appended and the loop
continues; a thrown network error, or a response without an array
`rounds` field (which raises and is caught identically), breaks the loop,
after logging the failure at the current spin count.  The collected
rounds are returned in either case. -/

namespace Ingest

/-- The outcome of one `executeSpinBatch` call: a response carrying an
array of rounds, a response lacking the expected round-list structure, or
a thrown network error. -/
inductive BatchResult where
  | ok (rounds : List GameRound)
  | malformed
  | netError
deriving DecidableEq, Repr

/-- The observable state of an `APIDataSource` run: the accumulated
`this.gameRounds`, `this.currentSpinCount`, and the spin count carried by
the `logError` message when a batch failed (`none` when no batch has
failed). -/
structure FetchState where
  currentSpinCount : ℕ
  gameRounds : List GameRound
  failedAt : Option ℕ
deriving DecidableEq, Repr

/-- The `while (this.currentSpinCount < this.totalSpins)` loop of
`fetchGameRounds` (src/unnamed/part_001 lines 23-45).  The supplier is
called with the call index and `spinsToFetch = min(batchSize, totalSpins
- currentSpinCount)`.  The fuel argument bounds the iteration count; it
never runs out on runs whose successful batches are non-empty (shown in
the theorems below), matching the termination behavior of the loop. -/
def fetchLoop (supplier : ℕ → ℕ → BatchResult) (totalSpins batchSize : ℕ) :
    ℕ → ℕ → FetchState → FetchState
  | 0, _, st => st
  | fuel + 1, call, st =>
    if st.currentSpinCount < totalSpins then
      match supplier call (min batchSize (totalSpins - st.currentSpinCount)) with
      | .ok rounds =>
          fetchLoop supplier totalSpins batchSize fuel (call + 1)
            { st with
              gameRounds := st.gameRounds ++ rounds
              currentSpinCount := st.currentSpinCount + rounds.length }
      | .malformed => { st with failedAt := some st.currentSpinCount }
      | .netError => { st with failedAt := some st.currentSpinCount }
    else st

/-- `APIDataSource.fetchGameRounds()` for a source constructed with the
given `totalSpins` and `batchSize`. -/
def fetchGameRounds (supplier : ℕ → ℕ → BatchResult) (totalSpins batchSize : ℕ) :
    FetchState :=
  fetchLoop supplier totalSpins batchSize (totalSpins + 1) 0 ⟨0, [], none⟩

/-- Total round count of the first `j` batches of a batch family. -/
def partialSum (batches : ℕ → List GameRound) : ℕ → ℕ
  | 0 => 0
  | j + 1 => partialSum batches j + (batches j).length

end Ingest

/-! ### Helper lemmas: association lists and field preservation -/

@[simp]
theorem alistGet_alistSet_self {α : Type} (m : List (String × α)) (k : String) (v : α) :
    alistGet (alistSet m k v) k = some v := by
  induction m with
  | nil => simp [alistGet, alistSet]
  | cons p rest ih =>
      by_cases h : p.1 = k
      · simp [alistGet, alistSet, h]
      · simp [alistGet, alistSet, h, ih]

theorem alistGet_alistSet_ne {α : Type} (m : List (String × α)) (k k' : String) (v : α)
    (h : k ≠ k') : alistGet (alistSet m k v) k' = alistGet m k' := by
  induction m with
  | nil => simp [alistGet, alistSet, h]
  | cons p rest ih =>
      by_cases hp : p.1 = k
      · simp only [alistSet, hp, if_pos]
        simp [alistGet, h, hp]
      · simp [alistGet, alistSet, hp, ih]

@[simp]
theorem alistGet_modifyScope_self (m : List (String × ScopeStats)) (k : String)
    (f : ScopeStats → ScopeStats) :
    alistGet (modifyScope m k f) k = some (f ((alistGet m k).getD freshScope)) := by
  simp [modifyScope]

/-- Sum of a field over the entries of a keyed scope map. -/
def scopeSum {M : Type} [AddCommMonoid M] (g : ScopeStats → M)
    (m : List (String × ScopeStats)) : M :=
  (m.map fun p => g p.2).sum

theorem scopeSum_alistSet {M : Type} [AddCommMonoid M] (g : ScopeStats → M)
    (m : List (String × ScopeStats)) (k : String) (v : ScopeStats) (d : M)
    (h0 : g freshScope = 0)
    (hv : g v = g ((alistGet m k).getD freshScope) + d) :
    scopeSum g (alistSet m k v) = scopeSum g m + d := by
  induction m with
  | nil =>
      simp [scopeSum, alistSet, alistGet] at hv ⊢
      simp [hv, h0]
  | cons p rest ih =>
      by_cases hp : p.1 = k
      · simp only [alistGet, hp, if_pos, Option.getD_some] at hv
        simp [scopeSum, alistSet, hp, hv, List.sum_cons]
        abel
      · simp only [alistGet, hp, if_neg, ite_false] at hv
        have := ih hv
        simp only [scopeSum, List.map_cons, List.sum_cons] at this ⊢
        simp [alistSet, hp, List.map_cons, List.sum_cons]
        rw [show ((alistSet rest k v).map fun p => g p.2).sum = ((rest.map fun p => g p.2).sum + d) from this]
        abel

theorem scopeSum_modifyScope {M : Type} [AddCommMonoid M] (g : ScopeStats → M)
    (m : List (String × ScopeStats)) (k : String) (f : ScopeStats → ScopeStats) (d : M)
    (h0 : g freshScope = 0)
    (hf : ∀ st, g (f st) = g st + d) :
    scopeSum g (modifyScope m k f) = scopeSum g m + d :=
  scopeSum_alistSet g m k _ d h0 (hf _)

@[simp] theorem flag_config (s : RTPStatistics) (k : ErrorKind) :
    (flagCriticalError s k).config = s.config := rfl
@[simp] theorem flag_calculator (s : RTPStatistics) (k : ErrorKind) :
    (flagCriticalError s k).rtpCalculator = s.rtpCalculator := rfl
@[simp] theorem flag_gameRounds (s : RTPStatistics) (k : ErrorKind) :
    (flagCriticalError s k).gameRounds = s.gameRounds := rfl
@[simp] theorem flag_rtpHistory (s : RTPStatistics) (k : ErrorKind) :
    (flagCriticalError s k).rtpHistory = s.rtpHistory := rfl
@[simp] theorem flag_totalBets (s : RTPStatistics) (k : ErrorKind) :
    (flagCriticalError s k).totalBets = s.totalBets := rfl
@[simp] theorem flag_totalPayouts (s : RTPStatistics) (k : ErrorKind) :
    (flagCriticalError s k).totalPayouts = s.totalPayouts := rfl
@[simp] theorem flag_perGameStats (s : RTPStatistics) (k : ErrorKind) :
    (flagCriticalError s k).perGameStats = s.perGameStats := rfl
@[simp] theorem flag_perClientStats (s : RTPStatistics) (k : ErrorKind) :
    (flagCriticalError s k).perClientStats = s.perClientStats := rfl
@[simp] theorem flag_criticalErrors (s : RTPStatistics) (k : ErrorKind) :
    (flagCriticalError s k).criticalErrors
      = s.criticalErrors ++ [⟨k, s.gameRounds.length⟩] := rfl

/-- The current losing streak stored for a client. -/
def clientStreak (s : RTPStatistics) (clientId : String) : ℕ :=
  ((alistGet s.perClientStats clientId).getD freshScope).currentLosingStreak

/-- The current losing streak stored for a game. -/
def gameStreak (s : RTPStatistics) (gameId : String) : ℕ :=
  ((alistGet s.perGameStats gameId).getD freshScope).currentLosingStreak

@[simp] theorem updateClientStreak_config (s : RTPStatistics) (r : GameRound) :
    (updateClientStreak s r).config = s.config := by
  simp only [updateClientStreak, flagCriticalError]
  split
  · rfl
  · split <;> rfl

@[simp] theorem updateClientStreak_calculator (s : RTPStatistics) (r : GameRound) :
    (updateClientStreak s r).rtpCalculator = s.rtpCalculator := by
  simp only [updateClientStreak, flagCriticalError]
  split
  · rfl
  · split <;> rfl

@[simp] theorem updateClientStreak_gameRounds (s : RTPStatistics) (r : GameRound) :
    (updateClientStreak s r).gameRounds = s.gameRounds := by
  simp only [updateClientStreak, flagCriticalError]
  split
  · rfl
  · split <;> rfl

@[simp] theorem updateClientStreak_rtpHistory (s : RTPStatistics) (r : GameRound) :
    (updateClientStreak s r).rtpHistory = s.rtpHistory := by
  simp only [updateClientStreak, flagCriticalError]
  split
  · rfl
  · split <;> rfl

@[simp] theorem updateClientStreak_totalBets (s : RTPStatistics) (r : GameRound) :
    (updateClientStreak s r).totalBets = s.totalBets := by
  simp only [updateClientStreak, flagCriticalError]
  split
  · rfl
  · split <;> rfl

@[simp] theorem updateClientStreak_totalPayouts (s : RTPStatistics) (r : GameRound) :
    (updateClientStreak s r).totalPayouts = s.totalPayouts := by
  simp only [updateClientStreak, flagCriticalError]
  split
  · rfl
  · split <;> rfl

@[simp] theorem updateClientStreak_perGameStats (s : RTPStatistics) (r : GameRound) :
    (updateClientStreak s r).perGameStats = s.perGameStats := by
  simp only [updateClientStreak, flagCriticalError]
  split
  · rfl
  · split <;> rfl

/-- Losing round: the client streak tracker only increments the counter
and flags nothing. -/
theorem updateClientStreak_criticalErrors_loss (s : RTPStatistics) (r : GameRound)
    (h : r.payout < r.betAmount) :
    (updateClientStreak s r).criticalErrors = s.criticalErrors := by
  simp only [updateClientStreak]
  rw [if_pos h]

/-- Non-losing round: the ending streak is compared against the
configured maximum and flagged exactly when it reaches it. -/
theorem updateClientStreak_criticalErrors_win (s : RTPStatistics) (r : GameRound)
    (h : ¬ r.payout < r.betAmount) :
    (updateClientStreak s r).criticalErrors =
      if s.config.maxLosingStreak ≤ clientStreak s r.clientId then
        s.criticalErrors ++
          [⟨.losingStreakClient r.clientId (clientStreak s r.clientId)
              s.config.maxLosingStreak, s.gameRounds.length⟩]
      else s.criticalErrors := by
  simp only [updateClientStreak]
  rw [if_neg h]
  split <;> rename_i hc <;> simp [clientStreak, flagCriticalError, hc]

/-- Non-losing round: the client streak is reset to zero. -/
theorem updateClientStreak_streak_win (s : RTPStatistics) (r : GameRound)
    (h : ¬ r.payout < r.betAmount) :
    clientStreak (updateClientStreak s r) r.clientId = 0 := by
  unfold updateClientStreak
  rw [if_neg h]
  dsimp only
  split <;> simp [clientStreak]

/-- Losing round: the client streak is incremented. -/
theorem updateClientStreak_streak_loss (s : RTPStatistics) (r : GameRound)
    (h : r.payout < r.betAmount) :
    clientStreak (updateClientStreak s r) r.clientId = clientStreak s r.clientId + 1 := by
  simp only [updateClientStreak]
  rw [if_pos h]
  simp [clientStreak]

@[simp] theorem updateGameStreak_config (s : RTPStatistics) (r : GameRound) :
    (updateGameStreak s r).config = s.config := by
  simp only [updateGameStreak]
  split <;> rfl

@[simp] theorem updateGameStreak_calculator (s : RTPStatistics) (r : GameRound) :
    (updateGameStreak s r).rtpCalculator = s.rtpCalculator := by
  simp only [updateGameStreak]
  split <;> rfl

@[simp] theorem updateGameStreak_gameRounds (s : RTPStatistics) (r : GameRound) :
    (updateGameStreak s r).gameRounds = s.gameRounds := by
  simp only [updateGameStreak]
  split <;> rfl

@[simp] theorem updateGameStreak_rtpHistory (s : RTPStatistics) (r : GameRound) :
    (updateGameStreak s r).rtpHistory = s.rtpHistory := by
  simp only [updateGameStreak]
  split <;> rfl

@[simp] theorem updateGameStreak_totalBets (s : RTPStatistics) (r : GameRound) :
    (updateGameStreak s r).totalBets = s.totalBets := by
  simp only [updateGameStreak]
  split <;> rfl

@[simp] theorem updateGameStreak_totalPayouts (s : RTPStatistics) (r : GameRound) :
    (updateGameStreak s r).totalPayouts = s.totalPayouts := by
  simp only [updateGameStreak]
  split <;> rfl

@[simp] theorem updateGameStreak_perClientStats (s : RTPStatistics) (r : GameRound) :
    (updateGameStreak s r).perClientStats = s.perClientStats := by
  simp only [updateGameStreak]
  split <;> rfl

/-- The game-scope half of the streak tracker never flags a critical
error: it only increments or resets the counter. -/
@[simp] theorem updateGameStreak_criticalErrors (s : RTPStatistics) (r : GameRound) :
    (updateGameStreak s r).criticalErrors = s.criticalErrors := by
  simp only [updateGameStreak]
  split <;> rfl

/-- Non-losing round: the game streak is reset to zero. -/
theorem updateGameStreak_streak_win (s : RTPStatistics) (r : GameRound)
    (h : ¬ r.payout < r.betAmount) :
    gameStreak (updateGameStreak s r) r.gameId = 0 := by
  simp only [updateGameStreak]
  rw [if_neg h]
  simp [gameStreak]

@[simp] theorem applyRoundTotals_config (s : RTPStatistics) (r : GameRound) :
    (applyRoundTotals s r).config = s.config := rfl
@[simp] theorem applyRoundTotals_calculator (s : RTPStatistics) (r : GameRound) :
    (applyRoundTotals s r).rtpCalculator = s.rtpCalculator := rfl
@[simp] theorem applyRoundTotals_gameRounds (s : RTPStatistics) (r : GameRound) :
    (applyRoundTotals s r).gameRounds = s.gameRounds ++ [r] := rfl
@[simp] theorem applyRoundTotals_rtpHistory (s : RTPStatistics) (r : GameRound) :
    (applyRoundTotals s r).rtpHistory = s.rtpHistory := rfl
@[simp] theorem applyRoundTotals_criticalErrors (s : RTPStatistics) (r : GameRound) :
    (applyRoundTotals s r).criticalErrors = s.criticalErrors := rfl
@[simp] theorem applyRoundTotals_totalBets (s : RTPStatistics) (r : GameRound) :
    (applyRoundTotals s r).totalBets = s.totalBets + r.betAmount := rfl
@[simp] theorem applyRoundTotals_totalPayouts (s : RTPStatistics) (r : GameRound) :
    (applyRoundTotals s r).totalPayouts = s.totalPayouts + r.payout := rfl

/-- The scope accumulation of `addGameRound` does not touch the streak
counter, so the streak the tracker then reads for the client of the round
is the one stored before the round. -/
theorem applyRoundTotals_clientStreak (s : RTPStatistics) (r : GameRound) :
    clientStreak (applyRoundTotals s r) r.clientId = clientStreak s r.clientId := by
  simp [clientStreak, applyRoundTotals, roundScopeUpdate]

theorem addGameRound_invalid (s : RTPStatistics) (r : GameRound)
    (h : ¬ r.valid = true) : addGameRound s r = s := by
  simp [addGameRound, h]

@[simp] theorem addGameRound_config (s : RTPStatistics) (r : GameRound) :
    (addGameRound s r).config = s.config := by
  unfold addGameRound trackLosingStreaks
  split <;> simp

@[simp] theorem addGameRound_calculator (s : RTPStatistics) (r : GameRound) :
    (addGameRound s r).rtpCalculator = s.rtpCalculator := by
  unfold addGameRound trackLosingStreaks
  split <;> simp

@[simp] theorem addGameRound_rtpHistory (s : RTPStatistics) (r : GameRound) :
    (addGameRound s r).rtpHistory = s.rtpHistory := by
  unfold addGameRound trackLosingStreaks
  split <;> simp

theorem addGameRound_gameRounds (s : RTPStatistics) (r : GameRound)
    (h : r.valid = true) :
    (addGameRound s r).gameRounds = s.gameRounds ++ [r] := by
  unfold addGameRound trackLosingStreaks
  rw [if_pos h]
  simp

theorem addGameRound_totalBets (s : RTPStatistics) (r : GameRound)
    (h : r.valid = true) :
    (addGameRound s r).totalBets = s.totalBets + r.betAmount := by
  unfold addGameRound trackLosingStreaks
  rw [if_pos h]
  simp

theorem addGameRound_totalPayouts (s : RTPStatistics) (r : GameRound)
    (h : r.valid = true) :
    (addGameRound s r).totalPayouts = s.totalPayouts + r.payout := by
  unfold addGameRound trackLosingStreaks
  rw [if_pos h]
  simp

/-- On a loss, `addGameRound` flags nothing: the critical-error log is
unchanged. -/
theorem addGameRound_criticalErrors_loss (s : RTPStatistics) (r : GameRound)
    (h : r.valid = true) (hl : r.payout < r.betAmount) :
    (addGameRound s r).criticalErrors = s.criticalErrors := by
  unfold addGameRound trackLosingStreaks
  rw [if_pos h]
  rw [updateGameStreak_criticalErrors, updateClientStreak_criticalErrors_loss _ _ hl]
  simp

/-- On a non-loss, `addGameRound` flags a client losing-streak anomaly
exactly when the streak that is ending has reached the configured
maximum; the record carries the ended streak length and the round count
including the current round. -/
theorem addGameRound_criticalErrors_win (s : RTPStatistics) (r : GameRound)
    (h : r.valid = true) (hw : ¬ r.payout < r.betAmount) :
    (addGameRound s r).criticalErrors =
      if s.config.maxLosingStreak ≤ clientStreak s r.clientId then
        s.criticalErrors ++
          [⟨.losingStreakClient r.clientId (clientStreak s r.clientId)
              s.config.maxLosingStreak, s.gameRounds.length + 1⟩]
      else s.criticalErrors := by
  unfold addGameRound trackLosingStreaks
  rw [if_pos h]
  rw [updateGameStreak_criticalErrors, updateClientStreak_criticalErrors_win _ _ hw]
  simp [applyRoundTotals_clientStreak]

/-- After a non-loss round, the stored streak of the client of the round
is zero. -/
theorem addGameRound_clientStreak_win (s : RTPStatistics) (r : GameRound)
    (h : r.valid = true) (hw : ¬ r.payout < r.betAmount) :
    clientStreak (addGameRound s r) r.clientId = 0 := by
  unfold addGameRound trackLosingStreaks
  rw [if_pos h]
  unfold clientStreak
  rw [updateGameStreak_perClientStats]
  exact updateClientStreak_streak_win _ _ hw

/-- After a non-loss round, the stored streak of the game of the round is
zero. -/
theorem addGameRound_gameStreak_win (s : RTPStatistics) (r : GameRound)
    (h : r.valid = true) (hw : ¬ r.payout < r.betAmount) :
    gameStreak (addGameRound s r) r.gameId = 0 := by
  unfold addGameRound trackLosingStreaks
  rw [if_pos h]
  exact updateGameStreak_streak_win _ _ hw

/-- The scope record stored for a game (the fresh record when the game is
unseen). -/
def gameScope (s : RTPStatistics) (g : String) : ScopeStats :=
  (alistGet s.perGameStats g).getD freshScope

/-- The scope record stored for a client (the fresh record when the
client is unseen). -/
def clientScope (s : RTPStatistics) (c : String) : ScopeStats :=
  (alistGet s.perClientStats c).getD freshScope

theorem updateClientStreak_clientScope (s : RTPStatistics) (r : GameRound) :
    clientScope (updateClientStreak s r) r.clientId =
      { clientScope s r.clientId with
        currentLosingStreak :=
          if r.payout < r.betAmount then (clientScope s r.clientId).currentLosingStreak + 1
          else 0 } := by
  by_cases hl : r.payout < r.betAmount
  · simp only [updateClientStreak]
    rw [if_pos hl, if_pos hl]
    simp [clientScope]
  · simp only [updateClientStreak]
    rw [if_neg hl, if_neg hl]
    split <;> simp [clientScope]

theorem updateGameStreak_gameScope (s : RTPStatistics) (r : GameRound) :
    gameScope (updateGameStreak s r) r.gameId =
      { gameScope s r.gameId with
        currentLosingStreak :=
          if r.payout < r.betAmount then (gameScope s r.gameId).currentLosingStreak + 1
          else 0 } := by
  by_cases hl : r.payout < r.betAmount
  · simp only [updateGameStreak]
    rw [if_pos hl, if_pos hl]
    simp [gameScope]
  · simp only [updateGameStreak]
    rw [if_neg hl, if_neg hl]
    simp [gameScope]

@[simp] theorem applyRoundTotals_gameScope (s : RTPStatistics) (r : GameRound) :
    gameScope (applyRoundTotals s r) r.gameId = roundScopeUpdate r (gameScope s r.gameId) := by
  simp [gameScope, applyRoundTotals]

@[simp] theorem applyRoundTotals_clientScope (s : RTPStatistics) (r : GameRound) :
    clientScope (applyRoundTotals s r) r.clientId = roundScopeUpdate r (clientScope s r.clientId) := by
  simp [clientScope, applyRoundTotals]

/-- Full description of the scope record of the game of an accepted
round after `addGameRound`. -/
theorem addGameRound_gameScope (s : RTPStatistics) (r : GameRound)
    (h : r.valid = true) :
    gameScope (addGameRound s r) r.gameId =
      { totalBets := (gameScope s r.gameId).totalBets + r.betAmount
        totalPayouts := (gameScope s r.gameId).totalPayouts + r.payout
        rounds := (gameScope s r.gameId).rounds + 1
        currentLosingStreak :=
          if r.payout < r.betAmount then (gameScope s r.gameId).currentLosingStreak + 1
          else 0 } := by
  unfold addGameRound trackLosingStreaks
  rw [if_pos h]
  have h1 : gameScope (updateClientStreak (applyRoundTotals s r) r) r.gameId
      = gameScope (applyRoundTotals s r) r.gameId := by
    unfold gameScope
    rw [updateClientStreak_perGameStats]
  rw [updateGameStreak_gameScope, h1, applyRoundTotals_gameScope]
  simp [roundScopeUpdate]

/-- Full description of the scope record of the client of an accepted
round after `addGameRound`. -/
theorem addGameRound_clientScope (s : RTPStatistics) (r : GameRound)
    (h : r.valid = true) :
    clientScope (addGameRound s r) r.clientId =
      { totalBets := (clientScope s r.clientId).totalBets + r.betAmount
        totalPayouts := (clientScope s r.clientId).totalPayouts + r.payout
        rounds := (clientScope s r.clientId).rounds + 1
        currentLosingStreak :=
          if r.payout < r.betAmount then (clientScope s r.clientId).currentLosingStreak + 1
          else 0 } := by
  unfold addGameRound trackLosingStreaks
  have h1 : clientScope (updateGameStreak (updateClientStreak (applyRoundTotals s r) r) r) r.clientId
      = clientScope (updateClientStreak (applyRoundTotals s r) r) r.clientId := by
    unfold clientScope
    rw [updateGameStreak_perClientStats]
  rw [if_pos h, h1, updateClientStreak_clientScope, applyRoundTotals_clientScope]
  simp [roundScopeUpdate]

/-- Totals of a fresh engine after a sequence of accepted rounds: the
stored round list is the input list and the overall sums are the sums of
the rounds. -/
theorem applyRounds_totals (cfg : Config) (rs : List GameRound)
    (hv : ∀ r ∈ rs, r.valid = true) :
    (applyRounds cfg rs).gameRounds = rs
    ∧ (applyRounds cfg rs).totalBets = (rs.map GameRound.betAmount).sum
    ∧ (applyRounds cfg rs).totalPayouts = (rs.map GameRound.payout).sum := by
  induction rs using List.reverseRecOn with
  | nil => simp [applyRounds, initState]
  | append_singleton l a ih =>
      have hva : a.valid = true := hv a (by simp)
      have hvl : ∀ r ∈ l, r.valid = true := fun r hr => hv r (by simp [hr])
      obtain ⟨ih1, ih2, ih3⟩ := ih hvl
      have happ : applyRounds cfg (l ++ [a]) = addGameRound (applyRounds cfg l) a := by
        simp [applyRounds, List.foldl_append]
      refine ⟨?_, ?_, ?_⟩
      · rw [happ, addGameRound_gameRounds _ _ hva, ih1]
      · rw [happ, addGameRound_totalBets _ _ hva, ih2]
        simp
      · rw [happ, addGameRound_totalPayouts _ _ hva, ih3]
        simp

/-- The three rounds of the concrete scenario of the specification:
(bet, payout) = (100, 96), (50, 48), (200, 192). -/
def scenarioRounds : List GameRound :=
  [⟨100, 96, "game1", "client1"⟩, ⟨50, 48, "game1", "client1"⟩,
    ⟨200, 192, "game1", "client1"⟩]

/-- C1.  For every sequence of valid game rounds added via
`addGameRound`, the cumulative RTP returned by
`getCurrentCumulativeRTP` equals direct recomputation from the raw
rounds, `sum(payout) / sum(betAmount) * 100`; and for the rounds
(100,96), (50,48), (200,192) it equals exactly 96, which with target 96
and tolerance 0.5 is reported valid by `generateReport`. -/
theorem c1_cumulative_rtp_identity (cfg : Config) (rs : List GameRound)
    (hv : ∀ r ∈ rs, r.valid = true)
    (hb : (rs.map GameRound.betAmount).sum ≠ 0) :
    getCurrentCumulativeRTP (applyRounds cfg rs)
        = (rs.map GameRound.payout).sum / (rs.map GameRound.betAmount).sum * 100
    ∧ getCurrentCumulativeRTP (applyRounds defaultConfig scenarioRounds) = 96
    ∧ (generateReport (applyRounds defaultConfig scenarioRounds)).isFinalOverallRTPValid
        = true := by
  obtain ⟨-, h2, h3⟩ := applyRounds_totals cfg rs hv
  refine ⟨?_, ?_, ?_⟩
  · unfold getCurrentCumulativeRTP
    rw [h2, h3, if_neg hb]
  · simp [applyRounds, addGameRound, GameRound.valid, applyRoundTotals, trackLosingStreaks,
      updateClientStreak, updateGameStreak, flagCriticalError, modifyScope, alistGet, alistSet,
      roundScopeUpdate, freshScope, getCurrentCumulativeRTP, defaultConfig, scenarioRounds,
      initState]
    norm_num
  · simp [applyRounds, addGameRound, GameRound.valid, applyRoundTotals, trackLosingStreaks,
      updateClientStreak, updateGameStreak, flagCriticalError, modifyScope, alistGet, alistSet,
      roundScopeUpdate, freshScope, getCurrentCumulativeRTP, defaultConfig, scenarioRounds,
      initState, generateReport]
    norm_num

theorem c1_witness :
    getCurrentCumulativeRTP (applyRounds defaultConfig scenarioRounds)
      = (scenarioRounds.map GameRound.payout).sum
          / (scenarioRounds.map GameRound.betAmount).sum * 100 :=
  (c1_cumulative_rtp_identity defaultConfig scenarioRounds (by decide)
    (by norm_num [scenarioRounds])).1

/-! ### The imported calculator actually used by `snapshotRTP`

`src/rtp/src/core/rtp-stats.js` imports its `RTPCalculator` from
`./rtp-calc.js`.  That class has a different signature from the README
contract the call sites of `RTPStatistics` are written against: its
`validateRTP(actualRTP, targetRTP, tolerance)` (rtp-calc.js lines
90-92) returns the bare boolean `Math.abs(actualRTP - targetRTP) <=
tolerance`, and its `calculateActualRTP(gameId)` (lines 43-59) looks
its argument up in the `this.gameData` map.  `snapshotRTP` calls
`validateRTP` with two arguments (so `tolerance` is `undefined`) and
`calculateActualRTP` with round arrays (which are not keys of the
string-keyed map, never filled on this instance).  The values that
actually flow through the snapshot path are therefore booleans,
`undefined`, `NaN` and the zero statistics object.  The `JS` namespace
models exactly this fragment of the JavaScript runtime, and the
`imported` definitions transcribe the imported calculator and the
escalation tests of `snapshotRTP` over it. -/

namespace JS

/-- The JavaScript runtime values that flow through the snapshot path
of the composed program. -/
inductive Value where
  | num (q : ℚ)
  | nan
  | bool (b : Bool)
  | undefined
  | statsObj (actualRTP totalBets totalPayouts : ℚ) (roundCount : ℕ)
deriving DecidableEq, Repr

/-- `ToNumber`: numbers map to themselves and booleans to 0 or 1;
`undefined`, `NaN` and a plain object (whose primitive form is a
non-numeric string) coerce to `NaN`, modelled as `none`. -/
def toNumber : Value → Option ℚ
  | .num q => some q
  | .bool b => some (if b then 1 else 0)
  | .nan => none
  | .undefined => none
  | .statsObj _ _ _ _ => none

/-- Numeric subtraction `a - b`: `NaN` when either operand coerces to
`NaN`. -/
def sub (a b : Value) : Value :=
  match toNumber a with
  | none => .nan
  | some x =>
    match toNumber b with
    | none => .nan
    | some y => .num (x - y)

/-- `Math.abs` (its argument is coerced to a number; `NaN` in, `NaN`
out). -/
def absV (v : Value) : Value :=
  match toNumber v with
  | none => .nan
  | some q => .num |q|

/-- Relational `a <= b`: false whenever either side coerces to `NaN`,
in particular for a comparison against `undefined`. -/
def le (a b : Value) : Bool :=
  match toNumber a with
  | none => false
  | some x =>
    match toNumber b with
    | none => false
    | some y => decide (x ≤ y)

/-- Relational `a > b`: false whenever either side coerces to `NaN`. -/
def gt (a b : Value) : Bool :=
  match toNumber a with
  | none => false
  | some x =>
    match toNumber b with
    | none => false
    | some y => decide (y < x)

/-- Property access `v.name`: booleans, numbers, `NaN` and `undefined`
have no own properties, so any read yields `undefined`; the statistics
object exposes its four fields. -/
def field (v : Value) (name : String) : Value :=
  match v with
  | .statsObj a tb tp rc =>
      if name = "actualRTP" then .num a
      else if name = "totalBets" then .num tb
      else if name = "totalPayouts" then .num tp
      else if name = "roundCount" then .num (rc : ℚ)
      else .undefined
  | _ => .undefined

/-- `ToBoolean` (truthiness): `undefined`, `NaN`, `false` and `0` are
falsy; objects are truthy. -/
def truthy : Value → Bool
  | .num q => decide (q ≠ 0)
  | .nan => false
  | .bool b => b
  | .undefined => false
  | .statsObj _ _ _ _ => true

end JS

/-- `RTPCalculator.calculateActualRTP` of the imported
src/rtp/src/core/rtp-calc.js (lines 43-59), applied to the round list
its body retrieves as `this.gameData.get(gameId) || []`: empty input
returns the zero statistics object, otherwise the sums and the RTP
rounded to four decimals are returned in the object.  When
`snapshotRTP` calls it, the `gameId` argument is a round array — not a
key of the string-keyed map, which this calculator instance never
fills — so the retrieved list is `[]`. -/
def importedCalculateActualRTP (gameRounds : List GameRound) : JS.Value :=
  if gameRounds.length = 0 then .statsObj 0 0 0 0
  else
    let totalBets := (gameRounds.map GameRound.betAmount).sum
    let totalPayouts := (gameRounds.map GameRound.payout).sum
    let actualRTP : ℚ := if totalBets = 0 then 0 else totalPayouts / totalBets * 100
    .statsObj (RtpCalc.toFixed4 actualRTP) totalBets totalPayouts gameRounds.length

/-- `RTPCalculator.validateRTP(actualRTP, targetRTP, tolerance)` of the
imported rtp-calc.js (lines 90-92): the bare boolean
`Math.abs(actualRTP - targetRTP) <= tolerance`.  `snapshotRTP` passes
only two arguments, so at its call sites `tolerance` is `.undefined`. -/
def importedValidateRTP (actualRTP targetRTP tolerance : JS.Value) : JS.Value :=
  .bool (JS.le (JS.absV (JS.sub actualRTP targetRTP)) tolerance)

/-- The line-92 (and, identically shaped, line-107) escalation test of
`snapshotRTP` as composed with the imported calculator:
`!validation.isValid && validation.deviation > tolerance *
criticalToleranceFactor`, where `validation` is whatever the imported
`validateRTP` returned. -/
def importedEscalation (validation : JS.Value) (tolerance criticalFactor : ℚ) : Bool :=
  !(JS.truthy (JS.field validation "isValid"))
    && JS.gt (JS.field validation "deviation") (.num (tolerance * criticalFactor))

/-- The line-121/123 client check of `snapshotRTP` as composed:
`Math.abs(clientRTP - overallTargetRTP) > overallTolerance * 3`,
where `clientRTP` is the value the imported `calculateActualRTP`
returned. -/
def importedClientCheck (clientRTP : JS.Value) (target tolerance : ℚ) : Bool :=
  JS.gt (JS.absV (JS.sub clientRTP (.num target))) (.num (tolerance * 3))

/-- C2 (code bug).  In the composed program the claimed validation
semantics never happens: the imported `validateRTP`, called without its
`tolerance` argument, returns the bare boolean `false` whatever its
inputs; reading `.isValid` and `.deviation` off any boolean yields
`undefined`, so the escalation test of `snapshotRTP` is constantly
false; the imported `calculateActualRTP` returns the zero-statistics
object for the empty list its body retrieves at these call sites; and
the client check compares `NaN` against the band, so it is constantly
false as well.  In particular, at the failing input of the claim —
target 96, tolerance 0.5, criticalFactor 2, actual RTP 97.5 — no
critical anomaly is escalated, although the claim (deviation 1.5 > 1.0)
requires one. -/
theorem c2_imported_validator_never_escalates :
    (∀ a t : JS.Value, importedValidateRTP a t .undefined = .bool false)
    ∧ (∀ (b : Bool) (tol cf : ℚ), importedEscalation (.bool b) tol cf = false)
    ∧ importedCalculateActualRTP [] = .statsObj 0 0 0 0
    ∧ (∀ (a tb tp : ℚ) (rc : ℕ) (target tol : ℚ),
        importedClientCheck (.statsObj a tb tp rc) target tol = false)
    ∧ importedEscalation (importedValidateRTP (.num (195/2)) (.num 96) .undefined) (1/2) 2
        = false := by
  have hval : ∀ a t : JS.Value, importedValidateRTP a t .undefined = .bool false := by
    intro a t
    unfold importedValidateRTP
    cases JS.absV (JS.sub a t) <;> rfl
  have hesc : ∀ (b : Bool) (tol cf : ℚ), importedEscalation (.bool b) tol cf = false := by
    intro b tol cf
    simp [importedEscalation, JS.field, JS.truthy, JS.gt, JS.toNumber]
  refine ⟨hval, hesc, rfl, ?_, ?_⟩
  · intro a tb tp rc target tol
    simp [importedClientCheck, JS.gt, JS.absV, JS.sub, JS.toNumber]
  · rw [hval]
    exact hesc false (1/2) 2

/-- Configuration of the streak scenarios: `maxLosingStreak = 2`. -/
def streakConfig : Config := { defaultConfig with maxLosingStreak := 2 }

/-- A losing round for the streak scenarios (payout below bet). -/
def lossRound : GameRound := ⟨10, 0, "g1", "c1"⟩

/-- A winning round for the streak scenarios (payout above bet). -/
def winRound : GameRound := ⟨10, 20, "g1", "c1"⟩

/-- C3.  With `maxLosingStreak = 2`, the rounds loss, loss, loss, win for
one client produce no anomaly during the three losses, and exactly one
losing-streak record — carrying the ended streak length 3 and the round
count 4 — when the win ends the streak, after which the stored client
streak is 0.  In general: a loss never changes the critical-error log; a
non-loss resets the client streak to 0, appending first a losing-streak
record carrying the ended length exactly when that length has reached
the configured maximum. -/
theorem c3_streak_detection_timing (s : RTPStatistics) (r : GameRound)
    (h : r.valid = true) :
    ((applyRounds streakConfig [lossRound, lossRound, lossRound]).criticalErrors = []
      ∧ (applyRounds streakConfig [lossRound, lossRound, lossRound, winRound]).criticalErrors
          = [⟨.losingStreakClient "c1" 3 2, 4⟩]
      ∧ clientStreak (applyRounds streakConfig [lossRound, lossRound, lossRound, winRound])
          "c1" = 0)
    ∧ (r.payout < r.betAmount →
        (addGameRound s r).criticalErrors = s.criticalErrors)
    ∧ (¬ r.payout < r.betAmount →
        clientStreak (addGameRound s r) r.clientId = 0
        ∧ (s.config.maxLosingStreak ≤ clientStreak s r.clientId →
            (addGameRound s r).criticalErrors = s.criticalErrors ++
              [⟨.losingStreakClient r.clientId (clientStreak s r.clientId)
                  s.config.maxLosingStreak, s.gameRounds.length + 1⟩])
        ∧ (clientStreak s r.clientId < s.config.maxLosingStreak →
            (addGameRound s r).criticalErrors = s.criticalErrors)) := by
  refine ⟨⟨?_, ?_, ?_⟩, ?_, ?_⟩
  · simp [applyRounds, addGameRound, GameRound.valid, applyRoundTotals, trackLosingStreaks,
      updateClientStreak, updateGameStreak, flagCriticalError, modifyScope, alistGet, alistSet,
      roundScopeUpdate, freshScope, defaultConfig, streakConfig, lossRound, initState]
  · simp [applyRounds, addGameRound, GameRound.valid, applyRoundTotals, trackLosingStreaks,
      updateClientStreak, updateGameStreak, flagCriticalError, modifyScope, alistGet, alistSet,
      roundScopeUpdate, freshScope, defaultConfig, streakConfig, lossRound, winRound, initState]
    norm_num
  · simp [clientStreak, applyRounds, addGameRound, GameRound.valid, applyRoundTotals,
      trackLosingStreaks, updateClientStreak, updateGameStreak, flagCriticalError, modifyScope,
      alistGet, alistSet, roundScopeUpdate, freshScope, defaultConfig, streakConfig, lossRound,
      winRound, initState]
  · exact fun hl => addGameRound_criticalErrors_loss s r h hl
  · intro hw
    refine ⟨addGameRound_clientStreak_win s r h hw, ?_, ?_⟩
    · intro hmax
      rw [addGameRound_criticalErrors_win s r h hw, if_pos hmax]
    · intro hlt
      rw [addGameRound_criticalErrors_win s r h hw, if_neg (not_le.mpr hlt)]

theorem c3_witness :
    (addGameRound (applyRounds streakConfig [lossRound, lossRound]) lossRound).criticalErrors
        = (applyRounds streakConfig [lossRound, lossRound]).criticalErrors
    ∧ clientStreak
        (addGameRound (applyRounds streakConfig [lossRound, lossRound, lossRound]) winRound)
        winRound.clientId = 0 :=
  ⟨(c3_streak_detection_timing (applyRounds streakConfig [lossRound, lossRound]) lossRound
      (by decide)).2.1 (by norm_num [lossRound]),
    ((c3_streak_detection_timing (applyRounds streakConfig [lossRound, lossRound, lossRound])
      winRound (by decide)).2.2 (by norm_num [winRound])).1⟩

/-- The three losing rounds of the game-scope scenario, by three distinct
clients of the same game (so that no client streak can reach the
maximum). -/
def gameLossRounds : List GameRound :=
  [⟨10, 0, "g1", "cA"⟩, ⟨10, 0, "g1", "cB"⟩, ⟨10, 0, "g1", "cC"⟩]

/-- The game-scope scenario ended by a winning round of a fourth
client. -/
def gameStreakRun : List GameRound := gameLossRounds ++ [⟨10, 20, "g1", "cD"⟩]

/-- C8 counterexample.  With `maxLosingStreak = 2`, game g1 accumulates a
losing streak of 3 over three rounds; the winning fourth round ends that
streak (resetting it to 0), yet the critical-error log stays empty — no
game-scope losing-streak AnomalyRecord is ever appended, contrary to the
claim that game scopes behave exactly like client scopes. -/
theorem c8_counterexample :
    streakConfig.maxLosingStreak = 2
    ∧ gameStreak (applyRounds streakConfig gameLossRounds) "g1" = 3
    ∧ (applyRounds streakConfig gameStreakRun).criticalErrors = []
    ∧ gameStreak (applyRounds streakConfig gameStreakRun) "g1" = 0 := by
  refine ⟨rfl, ?_, ?_, ?_⟩
  · simp [gameStreak, applyRounds, addGameRound, GameRound.valid, applyRoundTotals,
      trackLosingStreaks, updateClientStreak, updateGameStreak, flagCriticalError, modifyScope,
      alistGet, alistSet, roundScopeUpdate, freshScope, defaultConfig, streakConfig,
      gameLossRounds, initState]
  · simp [applyRounds, addGameRound, GameRound.valid, applyRoundTotals, trackLosingStreaks,
      updateClientStreak, updateGameStreak, flagCriticalError, modifyScope, alistGet, alistSet,
      roundScopeUpdate, freshScope, defaultConfig, streakConfig, gameLossRounds, gameStreakRun,
      initState]
    norm_num
  · simp [gameStreak, applyRounds, addGameRound, GameRound.valid, applyRoundTotals,
      trackLosingStreaks, updateClientStreak, updateGameStreak, flagCriticalError, modifyScope,
      alistGet, alistSet, roundScopeUpdate, freshScope, defaultConfig, streakConfig,
      gameLossRounds, gameStreakRun, initState]

/-- C8 (amended).  For game scopes, a non-loss round resets the stored
game streak to 0, but no AnomalyRecord is emitted for the game scope: any
record appended by `addGameRound` is a client losing-streak record. -/
theorem c8_game_streak_reset_only (s : RTPStatistics) (r : GameRound)
    (h : r.valid = true) (hw : ¬ r.payout < r.betAmount) :
    gameStreak (addGameRound s r) r.gameId = 0
    ∧ ∀ e ∈ (addGameRound s r).criticalErrors,
        e ∈ s.criticalErrors
        ∨ ∃ c n m, e.kind = ErrorKind.losingStreakClient c n m := by
  refine ⟨addGameRound_gameStreak_win s r h hw, ?_⟩
  intro e he
  rw [addGameRound_criticalErrors_win s r h hw] at he
  by_cases hmax : s.config.maxLosingStreak ≤ clientStreak s r.clientId
  · rw [if_pos hmax] at he
    rcases List.mem_append.mp he with h1 | h1
    · exact Or.inl h1
    · right
      rcases List.mem_singleton.mp h1 with rfl
      exact ⟨_, _, _, rfl⟩
  · rw [if_neg hmax] at he
    exact Or.inl he

theorem c8_witness :
    gameStreak (addGameRound (applyRounds streakConfig gameLossRounds) ⟨10, 20, "g1", "cD"⟩)
        "g1" = 0 :=
  (c8_game_streak_reset_only (applyRounds streakConfig gameLossRounds) ⟨10, 20, "g1", "cD"⟩
    (by decide) (by norm_num)).1

/-- A normal round followed by a round with `betAmount = 0` and
`payout = 5`, for the zero-bet scenario. -/
def zeroBetRounds : List GameRound := [⟨100, 96, "g1", "c1"⟩, ⟨0, 5, "g1", "c1"⟩]

/-- C4 counterexample.  After the rounds (bet 100, payout 96) and
(bet 0, payout 5): the zero-bet round left `totalBets` at 100 but pushed
`totalPayouts` to 101 — its payout IS added to the total-payout sum — and
in `RTPCalculator.updateStatistics` (src/rtp/src/core/rtp-calc.js) it
pushed the value 0 into the per-round-RTP distribution, dragging `minRTP`
from 96 down to 0.  Both effects contradict the claim that the round
contributes nothing to the payout sum and nothing to the
distribution. -/
theorem c4_counterexample :
    (applyRounds defaultConfig zeroBetRounds).totalBets = 100
    ∧ (applyRounds defaultConfig zeroBetRounds).totalPayouts = 101
    ∧ ((alistGet (RtpCalc.runCalc zeroBetRounds).statistics "g1").getD
        RtpCalc.initializeStatistics).rtpValues = [96, 0]
    ∧ ((alistGet (RtpCalc.runCalc zeroBetRounds).statistics "g1").getD
        RtpCalc.initializeStatistics).minRTP = some 0 := by
  refine ⟨?_, ?_, ?_, ?_⟩
  · simp [applyRounds, addGameRound, GameRound.valid, applyRoundTotals, trackLosingStreaks,
      updateClientStreak, updateGameStreak, flagCriticalError, modifyScope, alistGet, alistSet,
      roundScopeUpdate, freshScope, defaultConfig, zeroBetRounds, initState]
    norm_num
  · simp [applyRounds, addGameRound, GameRound.valid, applyRoundTotals, trackLosingStreaks,
      updateClientStreak, updateGameStreak, flagCriticalError, modifyScope, alistGet, alistSet,
      roundScopeUpdate, freshScope, defaultConfig, zeroBetRounds, initState]
    norm_num
  · simp [RtpCalc.runCalc, RtpCalc.addRoundData, RtpCalc.updateStatistics,
      RtpCalc.initializeStatistics, RtpCalc.initCalc, alistGet, alistSet, zeroBetRounds]
    norm_num
  · simp [RtpCalc.runCalc, RtpCalc.addRoundData, RtpCalc.updateStatistics,
      RtpCalc.initializeStatistics, RtpCalc.initCalc, alistGet, alistSet, zeroBetRounds,
      min_def]
    norm_num

/-- C4 (amended).  A valid round with `betAmount = 0`: `addGameRound`
still increments the stored round list and both scope round counts and
leaves every bet sum unchanged, but it adds the payout of the round to
the overall and scope payout sums; and `RTPCalculator.updateStatistics`
(src/rtp/src/core/rtp-calc.js) increments the round count, leaves the bet
sum unchanged, adds the payout, and pushes a per-round RTP value of 0
into the stored distribution. -/
theorem c4_zero_bet_round (s : RTPStatistics) (r : GameRound)
    (st : RtpCalc.GameStats) (payout : ℚ)
    (h : r.valid = true) (hb : r.betAmount = 0) :
    (addGameRound s r).gameRounds.length = s.gameRounds.length + 1
    ∧ (gameScope (addGameRound s r) r.gameId).rounds = (gameScope s r.gameId).rounds + 1
    ∧ (clientScope (addGameRound s r) r.clientId).rounds
        = (clientScope s r.clientId).rounds + 1
    ∧ (addGameRound s r).totalBets = s.totalBets
    ∧ (gameScope (addGameRound s r) r.gameId).totalBets = (gameScope s r.gameId).totalBets
    ∧ (clientScope (addGameRound s r) r.clientId).totalBets
        = (clientScope s r.clientId).totalBets
    ∧ (addGameRound s r).totalPayouts = s.totalPayouts + r.payout
    ∧ (RtpCalc.updateStatistics st 0 payout).roundCount = st.roundCount + 1
    ∧ (RtpCalc.updateStatistics st 0 payout).totalBets = st.totalBets
    ∧ (RtpCalc.updateStatistics st 0 payout).totalPayouts = st.totalPayouts + payout
    ∧ (RtpCalc.updateStatistics st 0 payout).rtpValues = st.rtpValues ++ [0] := by
  refine ⟨?_, ?_, ?_, ?_, ?_, ?_, ?_, ?_, ?_, ?_, ?_⟩
  · rw [addGameRound_gameRounds s r h]
    simp
  · rw [addGameRound_gameScope s r h]
  · rw [addGameRound_clientScope s r h]
  · rw [addGameRound_totalBets s r h, hb, add_zero]
  · rw [addGameRound_gameScope s r h]
    simp [hb]
  · rw [addGameRound_clientScope s r h]
    simp [hb]
  · exact addGameRound_totalPayouts s r h
  · simp only [RtpCalc.updateStatistics]
    norm_num
    repeat' split
    all_goals rfl
  · simp only [RtpCalc.updateStatistics]
    norm_num
    repeat' split
    all_goals rfl
  · simp only [RtpCalc.updateStatistics]
    norm_num
    repeat' split
    all_goals rfl
  · simp only [RtpCalc.updateStatistics]
    norm_num
    repeat' split
    all_goals rfl

theorem scopeSum_updateClientStreak {M : Type} [AddCommMonoid M] (g : ScopeStats → M)
    (s : RTPStatistics) (r : GameRound)
    (h0 : g freshScope = 0)
    (hstreak : ∀ st c, g { st with currentLosingStreak := c } = g st) :
    scopeSum g (updateClientStreak s r).perClientStats
      = scopeSum g s.perClientStats := by
  have key : ∀ c : ℕ,
      scopeSum g (alistSet s.perClientStats r.clientId
          { (alistGet s.perClientStats r.clientId).getD freshScope with
            currentLosingStreak := c })
        = scopeSum g s.perClientStats := by
    intro c
    rw [scopeSum_alistSet g s.perClientStats r.clientId _ 0 h0 (by rw [hstreak, add_zero]),
      add_zero]
  simp only [updateClientStreak]
  split
  · exact key _
  · split <;> exact key _

theorem scopeSum_updateGameStreak {M : Type} [AddCommMonoid M] (g : ScopeStats → M)
    (s : RTPStatistics) (r : GameRound)
    (h0 : g freshScope = 0)
    (hstreak : ∀ st c, g { st with currentLosingStreak := c } = g st) :
    scopeSum g (updateGameStreak s r).perGameStats
      = scopeSum g s.perGameStats := by
  have key : ∀ c : ℕ,
      scopeSum g (alistSet s.perGameStats r.gameId
          { (alistGet s.perGameStats r.gameId).getD freshScope with
            currentLosingStreak := c })
        = scopeSum g s.perGameStats := by
    intro c
    rw [scopeSum_alistSet g s.perGameStats r.gameId _ 0 h0 (by rw [hstreak, add_zero]),
      add_zero]
  simp only [updateGameStreak]
  split <;> exact key _

/-- The effect of an accepted round on a scope-field sum over the
per-game map. -/
theorem scopeSum_addGameRound_perGame {M : Type} [AddCommMonoid M] (g : ScopeStats → M)
    (s : RTPStatistics) (r : GameRound) (d : M)
    (h : r.valid = true)
    (h0 : g freshScope = 0)
    (hg : ∀ st, g (roundScopeUpdate r st) = g st + d)
    (hstreak : ∀ st c, g { st with currentLosingStreak := c } = g st) :
    scopeSum g (addGameRound s r).perGameStats = scopeSum g s.perGameStats + d := by
  unfold addGameRound trackLosingStreaks
  rw [if_pos h]
  rw [scopeSum_updateGameStreak g _ r h0 hstreak]
  have hclient : (updateClientStreak (applyRoundTotals s r) r).perGameStats
      = (applyRoundTotals s r).perGameStats := updateClientStreak_perGameStats _ _
  rw [hclient]
  show scopeSum g (modifyScope s.perGameStats r.gameId (roundScopeUpdate r))
      = scopeSum g s.perGameStats + d
  exact scopeSum_modifyScope g s.perGameStats r.gameId (roundScopeUpdate r) d h0 hg

/-- The effect of an accepted round on a scope-field sum over the
per-client map. -/
theorem scopeSum_addGameRound_perClient {M : Type} [AddCommMonoid M] (g : ScopeStats → M)
    (s : RTPStatistics) (r : GameRound) (d : M)
    (h : r.valid = true)
    (h0 : g freshScope = 0)
    (hg : ∀ st, g (roundScopeUpdate r st) = g st + d)
    (hstreak : ∀ st c, g { st with currentLosingStreak := c } = g st) :
    scopeSum g (addGameRound s r).perClientStats = scopeSum g s.perClientStats + d := by
  unfold addGameRound trackLosingStreaks
  rw [if_pos h]
  have hgame : (updateGameStreak (updateClientStreak (applyRoundTotals s r) r) r).perClientStats
      = (updateClientStreak (applyRoundTotals s r) r).perClientStats :=
    updateGameStreak_perClientStats _ _
  rw [hgame]
  rw [scopeSum_updateClientStreak g _ r h0 hstreak]
  show scopeSum g (modifyScope s.perClientStats r.clientId (roundScopeUpdate r))
      = scopeSum g s.perClientStats + d
  exact scopeSum_modifyScope g s.perClientStats r.clientId (roundScopeUpdate r) d h0 hg

/-- C10.  After every sequence of `addGameRound` calls on a fresh engine,
the overall totals agree with the per-scope breakdowns: `totalBets`
equals the sum of the stored `totalBets` over all `perGameStats` entries
and over all `perClientStats` entries, the same holds for
`totalPayouts`, and the stored round count equals the sum of the
per-game round counts and the sum of the per-client round counts. -/
theorem c10_scope_sum_consistency (cfg : Config) (rs : List GameRound) :
    (applyRounds cfg rs).totalBets
        = scopeSum ScopeStats.totalBets (applyRounds cfg rs).perGameStats
    ∧ (applyRounds cfg rs).totalBets
        = scopeSum ScopeStats.totalBets (applyRounds cfg rs).perClientStats
    ∧ (applyRounds cfg rs).totalPayouts
        = scopeSum ScopeStats.totalPayouts (applyRounds cfg rs).perGameStats
    ∧ (applyRounds cfg rs).totalPayouts
        = scopeSum ScopeStats.totalPayouts (applyRounds cfg rs).perClientStats
    ∧ (applyRounds cfg rs).gameRounds.length
        = scopeSum ScopeStats.rounds (applyRounds cfg rs).perGameStats
    ∧ (applyRounds cfg rs).gameRounds.length
        = scopeSum ScopeStats.rounds (applyRounds cfg rs).perClientStats := by
  induction rs using List.reverseRecOn with
  | nil => simp [applyRounds, initState, scopeSum]
  | append_singleton l a ih =>
      obtain ⟨i1, i2, i3, i4, i5, i6⟩ := ih
      have happ : applyRounds cfg (l ++ [a]) = addGameRound (applyRounds cfg l) a := by
        simp [applyRounds, List.foldl_append]
      by_cases hv : a.valid = true
      · rw [happ]
        refine ⟨?_, ?_, ?_, ?_, ?_, ?_⟩
        · rw [addGameRound_totalBets _ _ hv,
            scopeSum_addGameRound_perGame ScopeStats.totalBets _ a a.betAmount hv rfl
              (fun st => rfl) (fun st c => rfl), i1]
        · rw [addGameRound_totalBets _ _ hv,
            scopeSum_addGameRound_perClient ScopeStats.totalBets _ a a.betAmount hv rfl
              (fun st => rfl) (fun st c => rfl), i2]
        · rw [addGameRound_totalPayouts _ _ hv,
            scopeSum_addGameRound_perGame ScopeStats.totalPayouts _ a a.payout hv rfl
              (fun st => rfl) (fun st c => rfl), i3]
        · rw [addGameRound_totalPayouts _ _ hv,
            scopeSum_addGameRound_perClient ScopeStats.totalPayouts _ a a.payout hv rfl
              (fun st => rfl) (fun st c => rfl), i4]
        · rw [addGameRound_gameRounds _ _ hv,
            scopeSum_addGameRound_perGame ScopeStats.rounds _ a 1 hv rfl
              (fun st => rfl) (fun st c => rfl), List.length_append, i5]
          rfl
        · rw [addGameRound_gameRounds _ _ hv,
            scopeSum_addGameRound_perClient ScopeStats.rounds _ a 1 hv rfl
              (fun st => rfl) (fun st c => rfl), List.length_append, i6]
          rfl
      · rw [happ, addGameRound_invalid _ _ hv]
        exact ⟨i1, i2, i3, i4, i5, i6⟩

/-- The sample-size discipline of an anomaly record: an RTP-deviation
record must carry a round count that met the configured minimum at
detection time (the overall record in its `roundCount` field, the
per-scope records in their recorded scope round count); losing-streak
records are not subject to the minimum. -/
def rtpDeviationOk (minRounds : ℕ) (e : CriticalError) : Prop :=
  match e.kind with
  | .losingStreakClient _ _ _ => True
  | .overallRTPDeviation _ _ _ => minRounds ≤ e.roundCount
  | .gameRTPDeviation _ _ _ _ rounds => minRounds ≤ rounds
  | .clientRTPAnomaly _ _ _ _ rounds => minRounds ≤ rounds

theorem foldl_scan_invariant {α : Type} (cfg : Config) (P : CriticalError → Prop)
    (fn : RTPStatistics → α → RTPStatistics)
    (hfn : ∀ st a, st.config = cfg →
      fn st a = st ∨ ∃ k, fn st a = flagCriticalError st k ∧ P ⟨k, st.gameRounds.length⟩)
    (l : List α) :
    ∀ st, st.config = cfg → (∀ e ∈ st.criticalErrors, P e) →
      (l.foldl fn st).config = cfg
      ∧ ∀ e ∈ (l.foldl fn st).criticalErrors, P e := by
  induction l with
  | nil => exact fun st h1 h2 => ⟨h1, h2⟩
  | cons a t ih =>
      intro st h1 h2
      rcases hfn st a h1 with heq | ⟨k, heq, hk⟩
      · rw [List.foldl_cons, heq]
        exact ih st h1 h2
      · rw [List.foldl_cons, heq]
        apply ih
        · rw [flag_config]
          exact h1
        · intro e he
          rw [flag_criticalErrors] at he
          rcases List.mem_append.mp he with h | h
          · exact h2 e h
          · rcases List.mem_singleton.mp h with rfl
            exact hk

theorem gameScanStep_cases (cfg : Config) (st : RTPStatistics) (p : String × ScopeStats)
    (h : st.config = cfg) :
    gameScanStep st p = st
    ∨ ∃ k, gameScanStep st p = flagCriticalError st k
        ∧ rtpDeviationOk cfg.minRoundsForRTPValidation ⟨k, st.gameRounds.length⟩ := by
  simp only [gameScanStep]
  by_cases h1 : st.config.minRoundsForRTPValidation ≤ p.2.rounds
  · rw [if_pos h1]
    split
    · right
      refine ⟨_, rfl, ?_⟩
      show cfg.minRoundsForRTPValidation ≤ p.2.rounds
      rw [← h]
      exact h1
    · exact Or.inl rfl
  · rw [if_neg h1]
    exact Or.inl rfl

theorem clientScanStep_cases (cfg : Config) (st : RTPStatistics) (p : String × ScopeStats)
    (h : st.config = cfg) :
    clientScanStep st p = st
    ∨ ∃ k, clientScanStep st p = flagCriticalError st k
        ∧ rtpDeviationOk cfg.minRoundsForRTPValidation ⟨k, st.gameRounds.length⟩ := by
  simp only [clientScanStep]
  by_cases h1 : st.config.minRoundsForRTPValidation ≤ p.2.rounds
  · rw [if_pos h1]
    split
    · right
      refine ⟨_, rfl, ?_⟩
      show cfg.minRoundsForRTPValidation ≤ p.2.rounds
      rw [← h]
      exact h1
    · exact Or.inl rfl
  · rw [if_neg h1]
    exact Or.inl rfl

@[simp] theorem snapshotOverall_config (s : RTPStatistics) :
    (snapshotOverall s).config = s.config := by
  simp only [snapshotOverall]
  split <;> rfl

@[simp] theorem snapshotOverall_gameRounds (s : RTPStatistics) :
    (snapshotOverall s).gameRounds = s.gameRounds := by
  simp only [snapshotOverall]
  split <;> rfl

theorem snapshotOverall_errors (s : RTPStatistics) :
    ∀ e ∈ (snapshotOverall s).criticalErrors,
      e ∈ s.criticalErrors
      ∨ ∃ rtp t dev, e = ⟨.overallRTPDeviation rtp t dev, s.gameRounds.length⟩ := by
  intro e he
  simp only [snapshotOverall] at he
  split at he
  · simp only [flag_criticalErrors] at he
    rcases List.mem_append.mp he with h | h
    · exact Or.inl h
    · rcases List.mem_singleton.mp h with rfl
      exact Or.inr ⟨_, _, _, rfl⟩
  · exact Or.inl he

theorem snapshotRTP_invariant (s : RTPStatistics)
    (hP : ∀ e ∈ s.criticalErrors, rtpDeviationOk s.config.minRoundsForRTPValidation e) :
    (snapshotRTP s).config = s.config
    ∧ ∀ e ∈ (snapshotRTP s).criticalErrors,
        rtpDeviationOk s.config.minRoundsForRTPValidation e := by
  by_cases hlen : s.gameRounds.length < s.config.minRoundsForRTPValidation
  · unfold snapshotRTP
    rw [if_pos hlen]
    exact ⟨rfl, hP⟩
  · unfold snapshotRTP
    rw [if_neg hlen]
    have hover : (snapshotOverall s).config = s.config
        ∧ ∀ e ∈ (snapshotOverall s).criticalErrors,
            rtpDeviationOk s.config.minRoundsForRTPValidation e := by
      refine ⟨snapshotOverall_config s, ?_⟩
      intro e he
      rcases snapshotOverall_errors s e he with h | ⟨rtp, t, dev, rfl⟩
      · exact hP e h
      · show s.config.minRoundsForRTPValidation ≤ s.gameRounds.length
        exact le_of_not_lt hlen
    have hgame := foldl_scan_invariant s.config
      (rtpDeviationOk s.config.minRoundsForRTPValidation) gameScanStep
      (fun st a h => gameScanStep_cases s.config st a h)
      (snapshotOverall s).perGameStats (snapshotOverall s) hover.1 hover.2
    have hclient := foldl_scan_invariant s.config
      (rtpDeviationOk s.config.minRoundsForRTPValidation) clientScanStep
      (fun st a h => clientScanStep_cases s.config st a h)
      (gameScan (snapshotOverall s)).perClientStats (gameScan (snapshotOverall s))
      hgame.1 hgame.2
    exact hclient

theorem addGameRound_errors_cases (s : RTPStatistics) (r : GameRound) :
    ∀ e ∈ (addGameRound s r).criticalErrors,
      e ∈ s.criticalErrors
      ∨ ∃ c n m, e.kind = ErrorKind.losingStreakClient c n m := by
  intro e he
  by_cases hv : r.valid = true
  · by_cases hl : r.payout < r.betAmount
    · rw [addGameRound_criticalErrors_loss s r hv hl] at he
      exact Or.inl he
    · rw [addGameRound_criticalErrors_win s r hv hl] at he
      split at he
      · rcases List.mem_append.mp he with h | h
        · exact Or.inl h
        · rcases List.mem_singleton.mp h with rfl
          exact Or.inr ⟨_, _, _, rfl⟩
      · exact Or.inl he
  · rw [addGameRound_invalid s r hv] at he
    exact Or.inl he

/-- C5.  Over every sequence of engine calls (rounds added and snapshots
taken), every RTP-deviation record in the critical-error log was
appended with its scope round count at or above
`minRoundsForRTPValidation` (overall records in `roundCount`, per-scope
records in their recorded scope round count) — losing-streak records are
exempt; and `snapshotRTP` is the identity (records nothing at all) when
the total round count is below the minimum. -/
theorem c5_min_rounds_gate (cfg : Config) (ops : List Op) :
    (∀ e ∈ (applyOps cfg ops).criticalErrors,
        rtpDeviationOk cfg.minRoundsForRTPValidation e)
    ∧ ∀ s : RTPStatistics,
        s.gameRounds.length < s.config.minRoundsForRTPValidation →
          snapshotRTP s = s := by
  constructor
  · have main : (applyOps cfg ops).config = cfg
        ∧ ∀ e ∈ (applyOps cfg ops).criticalErrors,
            rtpDeviationOk cfg.minRoundsForRTPValidation e := by
      induction ops using List.reverseRecOn with
      | nil =>
          constructor
          · rfl
          · intro e he
            simp [applyOps, initState] at he
      | append_singleton t op ih =>
          have happ : applyOps cfg (t ++ [op]) = applyOp (applyOps cfg t) op := by
            simp [applyOps, List.foldl_append]
          rcases op with r | _
          · rw [happ]
            show (addGameRound (applyOps cfg t) r).config = cfg ∧ _
            constructor
            · rw [addGameRound_config]
              exact ih.1
            · intro e he
              rcases addGameRound_errors_cases (applyOps cfg t) r e he with h | ⟨c, n, m, hk⟩
              · exact ih.2 e h
              · show rtpDeviationOk cfg.minRoundsForRTPValidation e
                simp [rtpDeviationOk, hk]
          · rw [happ]
            show (snapshotRTP (applyOps cfg t)).config = cfg ∧ _
            have := snapshotRTP_invariant (applyOps cfg t)
              (by rw [ih.1]; exact ih.2)
            rw [ih.1] at this
            exact this
    exact main.2
  · intro s h
    unfold snapshotRTP
    rw [if_pos h]

theorem c5_witness :
    snapshotRTP (initState defaultConfig) = initState defaultConfig :=
  (c5_min_rounds_gate defaultConfig []).2 (initState defaultConfig) (by decide)

theorem c4_witness :
    (addGameRound (applyRounds defaultConfig [⟨100, 96, "g1", "c1"⟩]) ⟨0, 5, "g1", "c1"⟩).totalBets
        = (applyRounds defaultConfig [⟨100, 96, "g1", "c1"⟩]).totalBets
    ∧ (RtpCalc.updateStatistics RtpCalc.initializeStatistics 0 5).rtpValues
        = RtpCalc.initializeStatistics.rtpValues ++ [0] :=
  ⟨(c4_zero_bet_round (applyRounds defaultConfig [⟨100, 96, "g1", "c1"⟩]) ⟨0, 5, "g1", "c1"⟩
      RtpCalc.initializeStatistics 5 (by decide) rfl).2.2.2.1,
    (c4_zero_bet_round (applyRounds defaultConfig [⟨100, 96, "g1", "c1"⟩]) ⟨0, 5, "g1", "c1"⟩
      RtpCalc.initializeStatistics 5 (by decide) rfl).2.2.2.2.2.2.2.2.2.2⟩

/-- C9.  `generateReport` of `RTPStatistics` and `getStatistics` of the
calculator are pure reads: as state transformers they leave every field
of the instance unchanged, and two consecutive calls with nothing added
in between return identical results. -/
theorem c9_report_pure_reads (s : RTPStatistics) (c : RtpCalc.CalcState) (g : String) :
    (generateReportM s).2 = s
    ∧ (generateReportM ((generateReportM s).2)).1 = (generateReportM s).1
    ∧ (RtpCalc.getStatisticsM c g).2 = c
    ∧ (RtpCalc.getStatisticsM ((RtpCalc.getStatisticsM c g).2) g).1
        = (RtpCalc.getStatisticsM c g).1 :=
  ⟨rfl, rfl, rfl, rfl⟩

/-- The per-round RTP percentage of a round (the value folded into the
statistics by both calculators). -/
def rtpOf (r : GameRound) : ℚ := r.payout / r.betAmount * 100

/-- Sum of squares of a list of rationals. -/
def sqSum (xs : List ℚ) : ℚ := (xs.map fun x => x ^ 2).sum

theorem sqSum_append_singleton (xs : List ℚ) (x : ℚ) :
    sqSum (xs ++ [x]) = sqSum xs + x ^ 2 := by
  simp [sqSum]

theorem sum_sq_dev (xs : List ℚ) (m : ℚ) :
    (xs.map fun v => (v - m) ^ 2).sum
      = sqSum xs - 2 * m * xs.sum + (xs.length : ℚ) * m ^ 2 := by
  induction xs with
  | nil => simp [sqSum]
  | cons x t ih =>
      simp only [List.map_cons, List.sum_cons, List.length_cons, sqSum] at ih ⊢
      rw [ih]
      push_cast
      ring

theorem welford_mean_step {L : ℚ} (hL : 0 < L) (S x : ℚ) :
    S / L + (x - S / L) / (L + 1) = (S + x) / (L + 1) := by
  have h1 : L ≠ 0 := ne_of_gt hL
  have h2 : L + 1 ≠ 0 := by positivity
  field_simp
  ring

theorem welford_m2_step {L : ℚ} (hL : 0 < L) (S Q x : ℚ) :
    Q - S ^ 2 / L + (x - S / L) * (x - (S / L + (x - S / L) / (L + 1)))
      = Q + x ^ 2 - (S + x) ^ 2 / (L + 1) := by
  have h1 : L ≠ 0 := ne_of_gt hL
  have h2 : L + 1 ≠ 0 := by positivity
  field_simp
  ring

/-- Invariant of the Welford state of `CoreCalc.updateStatistics` over a
round sequence with positive bets: the stored mean is the arithmetic mean
of the per-round RTP values, the running sum of squared deviations equals
`sum of squares - (sum)^2 / n`, and the variance field is that sum over
`n - 1` once two rounds exist. -/
theorem welford_invariant (rs : List GameRound) (h : ∀ r ∈ rs, 0 < r.betAmount) :
    (CoreCalc.runRounds rs).gameRounds = rs
    ∧ (CoreCalc.runRounds rs).stats.meanRTP
        = (rs.map rtpOf).sum / (rs.length : ℚ)
    ∧ (CoreCalc.runRounds rs).stats.sumSquaredDeviations
        = sqSum (rs.map rtpOf) - ((rs.map rtpOf).sum) ^ 2 / (rs.length : ℚ)
    ∧ (CoreCalc.runRounds rs).stats.variance
        = if 2 ≤ rs.length then
            (sqSum (rs.map rtpOf) - ((rs.map rtpOf).sum) ^ 2 / (rs.length : ℚ))
              / ((rs.length : ℚ) - 1)
          else 0 := by
  induction rs using List.reverseRecOn with
  | nil =>
      refine ⟨rfl, ?_, ?_, ?_⟩ <;>
        simp [CoreCalc.runRounds, CoreCalc.initializeStatistics, sqSum]
  | append_singleton l a ih =>
      have hb : 0 < a.betAmount := h a (by simp)
      have hl : ∀ r ∈ l, 0 < r.betAmount := fun r hr => h r (by simp [hr])
      obtain ⟨ih1, ih2, ih3, ih4⟩ := ih hl
      have happ : CoreCalc.runRounds (l ++ [a])
          = CoreCalc.addRoundData (CoreCalc.runRounds l) a := by
        simp [CoreCalc.runRounds, List.foldl_append]
      by_cases hnil : l = []
      · subst hnil
        rw [happ]
        refine ⟨rfl, ?_, ?_, ?_⟩ <;>
          simp [CoreCalc.runRounds, CoreCalc.addRoundData, CoreCalc.updateStatistics,
            CoreCalc.initializeStatistics, rtpOf, sqSum, if_pos hb]
      · have hpos : 0 < l.length := List.length_pos.mpr hnil
        have hL : (0 : ℚ) < (l.length : ℚ) := by exact_mod_cast hpos
        have hlen : (l ++ [a]).length = l.length + 1 := by simp
        have hsum : ((l ++ [a]).map rtpOf).sum = (l.map rtpOf).sum + rtpOf a := by
          simp
        have hsq : sqSum ((l ++ [a]).map rtpOf) = sqSum (l.map rtpOf) + rtpOf a ^ 2 := by
          rw [List.map_append]
          simp [sqSum_append_singleton]
        have hcast : (((l ++ [a]).length : ℕ) : ℚ) = (l.length : ℚ) + 1 := by
          rw [hlen]
          push_cast
          ring
        rw [happ]
        simp only [CoreCalc.addRoundData, CoreCalc.updateStatistics, ih1]
        rw [if_pos hb, if_pos (by rw [hlen]; omega : 1 < (l ++ [a]).length)]
        have hmean :
            (CoreCalc.runRounds l).stats.meanRTP
                + (a.payout / a.betAmount * 100 - (CoreCalc.runRounds l).stats.meanRTP)
                  / (((l ++ [a]).length : ℕ) : ℚ)
              = ((l ++ [a]).map rtpOf).sum / (((l ++ [a]).length : ℕ) : ℚ) := by
          rw [ih2, hcast, hsum]
          exact welford_mean_step hL (l.map rtpOf).sum (rtpOf a)
        have hm2 :
            (CoreCalc.runRounds l).stats.sumSquaredDeviations
                + (a.payout / a.betAmount * 100 - (CoreCalc.runRounds l).stats.meanRTP)
                  * (a.payout / a.betAmount * 100
                    - ((CoreCalc.runRounds l).stats.meanRTP
                      + (a.payout / a.betAmount * 100 - (CoreCalc.runRounds l).stats.meanRTP)
                        / (((l ++ [a]).length : ℕ) : ℚ)))
              = sqSum ((l ++ [a]).map rtpOf)
                - (((l ++ [a]).map rtpOf).sum) ^ 2 / (((l ++ [a]).length : ℕ) : ℚ) := by
          rw [ih2, ih3, hcast, hsum, hsq]
          exact welford_m2_step hL (l.map rtpOf).sum (sqSum (l.map rtpOf)) (rtpOf a)
        refine ⟨trivial, ?_, ?_, ?_⟩
        · exact hmean
        · exact hm2
        · rw [if_pos (by rw [hlen]; omega : 2 ≤ (l ++ [a]).length)]
          rw [hm2, hcast]

/-- C7.  For every round sequence with positive bets, the running
variance maintained online by `updateStatistics` of
src/src/core/rtp-stats.js (the Welford single-pass update) equals the
naive two-pass sample variance of `calculateBasicStatistics`
(denominator `count - 1`) computed from the same per-round RTP values,
exactly, over exact arithmetic; with fewer than two rounds the stored
variance and the derived standard deviation are both zero. -/
theorem c7_welford_variance_equivalence (rs : List GameRound)
    (h : ∀ r ∈ rs, 0 < r.betAmount) :
    (2 ≤ rs.length →
      (CoreCalc.runRounds rs).stats.variance
        = CoreCalc.basicVariance (CoreCalc.calculateRTPPerRound rs))
    ∧ (rs.length < 2 →
        (CoreCalc.runRounds rs).stats.variance = 0
        ∧ CoreCalc.standardDeviation (CoreCalc.runRounds rs).stats = 0) := by
  obtain ⟨-, -, -, hvar⟩ := welford_invariant rs h
  constructor
  · intro h2len
    rw [hvar, if_pos h2len]
    have hfil : rs.filter (fun r => decide (0 < r.betAmount)) = rs :=
      List.filter_eq_self.mpr (fun a ha => decide_eq_true (h a ha))
    have hcalc : CoreCalc.calculateRTPPerRound rs = rs.map rtpOf := by
      unfold CoreCalc.calculateRTPPerRound
      rw [hfil]
      rfl
    rw [hcalc]
    unfold CoreCalc.basicVariance CoreCalc.basicMean
    rw [sum_sq_dev]
    simp only [List.length_map]
    have hL : (0 : ℚ) < (rs.length : ℚ) := by
      have : 0 < rs.length := by omega
      exact_mod_cast this
    have hLne : (rs.length : ℚ) ≠ 0 := ne_of_gt hL
    have halg :
        sqSum (rs.map rtpOf)
            - 2 * ((rs.map rtpOf).sum / (rs.length : ℚ)) * (rs.map rtpOf).sum
            + (rs.length : ℚ) * ((rs.map rtpOf).sum / (rs.length : ℚ)) ^ 2
          = sqSum (rs.map rtpOf) - ((rs.map rtpOf).sum) ^ 2 / (rs.length : ℚ) := by
      field_simp
      ring
    rw [halg]
  · intro hlt
    have hn2 : ¬ 2 ≤ rs.length := by omega
    constructor
    · rw [hvar, if_neg hn2]
    · unfold CoreCalc.standardDeviation
      rw [hvar, if_neg hn2]
      simp

/-- Three concrete positive-bet rounds with per-round RTP values 96, 50
and 150. -/
def welfordRounds : List GameRound :=
  [⟨100, 96, "g", "c"⟩, ⟨100, 50, "g", "c"⟩, ⟨100, 150, "g", "c"⟩]

theorem c7_witness :
    (CoreCalc.runRounds welfordRounds).stats.variance
      = CoreCalc.basicVariance (CoreCalc.calculateRTPPerRound welfordRounds) :=
  (c7_welford_variance_equivalence welfordRounds (by decide)).1 (by decide)

theorem partialSum_ge (batches : ℕ → List GameRound) (k : ℕ)
    (hne : ∀ i < k, batches i ≠ []) : k ≤ Ingest.partialSum batches k := by
  induction k with
  | zero => simp [Ingest.partialSum]
  | succ n ih =>
      have h1 := ih (fun i hi => hne i (by omega))
      have h2 : 0 < (batches n).length := List.length_pos.mpr (hne n (by omega))
      simp only [Ingest.partialSum]
      omega

/-- Behavior of the fetch loop along a run whose first `k` batches
succeed with non-empty round lists and whose batch `k` fails: from the
state reached after `j` successful batches, the loop ends in the state
that collected exactly the first `k` batches and logged the failure at
that round count. -/
theorem fetchLoop_run (supplier : ℕ → ℕ → Ingest.BatchResult)
    (totalSpins batchSize k : ℕ) (batches : ℕ → List GameRound)
    (hok : ∀ i < k,
      supplier i (min batchSize (totalSpins - Ingest.partialSum batches i))
        = .ok (batches i))
    (hlt : ∀ i ≤ k, Ingest.partialSum batches i < totalSpins)
    (hfail : supplier k (min batchSize (totalSpins - Ingest.partialSum batches k))
        = .malformed
      ∨ supplier k (min batchSize (totalSpins - Ingest.partialSum batches k))
        = .netError) :
    ∀ fuel j, j ≤ k → k - j < fuel →
      Ingest.fetchLoop supplier totalSpins batchSize fuel j
          ⟨Ingest.partialSum batches j, (List.range j).flatMap batches, none⟩
        = ⟨Ingest.partialSum batches k, (List.range k).flatMap batches,
            some (Ingest.partialSum batches k)⟩ := by
  intro fuel
  induction fuel with
  | zero => intro j hj hf; omega
  | succ fuel ih =>
      intro j hj hf
      rw [Ingest.fetchLoop]
      rw [if_pos (hlt j hj)]
      by_cases hjk : j < k
      · rw [hok j hjk]
        have hbind : (List.range (j + 1)).flatMap batches
            = (List.range j).flatMap batches ++ batches j := by
          rw [List.range_succ]
          simp
        have hS : Ingest.partialSum batches j + (batches j).length
            = Ingest.partialSum batches (j + 1) := rfl
        show Ingest.fetchLoop supplier totalSpins batchSize fuel (j + 1)
            ⟨Ingest.partialSum batches j + (batches j).length,
              (List.range j).flatMap batches ++ batches j, none⟩ = _
        rw [hS, ← hbind]
        exact ih (j + 1) hjk (by omega)
      · have hj_eq : j = k := le_antisymm hj (not_lt.mp hjk)
        subst hj_eq
        rcases hfail with hf1 | hf1 <;> rw [hf1]

/-- A round as produced by the example supplier of the partial-ingestion
scenario. -/
def exRound : GameRound := ⟨1, 1, "g1", "g1-client-api"⟩

/-- A supplier that answers the first two requests with 100 rounds each
and then fails with a network error. -/
def exSupplier : ℕ → ℕ → Ingest.BatchResult := fun i _ =>
  if i < 2 then .ok (List.replicate 100 exRound) else .netError

/-- C6.  Along every run of the batch fetch loop whose first `k` batches
succeed (with non-empty round lists, staying below the requested total)
and whose batch `k` fails — network error or malformed response — the
loop stops, returns (rather than throws) the state holding exactly the
rounds of the `k` successful batches, and logs the failure at the round
count where it occurred; in particular the supplier that delivers 2 of 5
requested 100-round batches and then fails yields exactly 200 rounds
with the failure logged at 200. -/
theorem c6_partial_ingestion (supplier : ℕ → ℕ → Ingest.BatchResult)
    (totalSpins batchSize k : ℕ) (batches : ℕ → List GameRound)
    (hok : ∀ i < k,
      supplier i (min batchSize (totalSpins - Ingest.partialSum batches i))
        = .ok (batches i))
    (hne : ∀ i < k, batches i ≠ [])
    (hlt : ∀ i ≤ k, Ingest.partialSum batches i < totalSpins)
    (hfail : supplier k (min batchSize (totalSpins - Ingest.partialSum batches k))
        = .malformed
      ∨ supplier k (min batchSize (totalSpins - Ingest.partialSum batches k))
        = .netError) :
    Ingest.fetchGameRounds supplier totalSpins batchSize
        = ⟨Ingest.partialSum batches k, (List.range k).flatMap batches,
            some (Ingest.partialSum batches k)⟩
    ∧ (Ingest.fetchGameRounds exSupplier 500 100).gameRounds.length = 200
    ∧ (Ingest.fetchGameRounds exSupplier 500 100).failedAt = some 200 := by
  refine ⟨?_, by rfl, by rfl⟩
  have hk : k < totalSpins := by
    have h1 := partialSum_ge batches k hne
    have h2 := hlt k le_rfl
    omega
  exact fetchLoop_run supplier totalSpins batchSize k batches hok hlt hfail
    (totalSpins + 1) 0 (Nat.zero_le k) (by omega)

theorem c6_witness :
    Ingest.fetchGameRounds exSupplier 500 100
      = ⟨200, (List.range 2).flatMap (fun _ => List.replicate 100 exRound), some 200⟩ :=
  (c6_partial_ingestion exSupplier 500 100 2 (fun _ => List.replicate 100 exRound)
    (by decide) (by decide) (by decide) (by decide)).1

end RTPEngine
